import Mathlib

/-
Shallow embedding of the Protocol Risk Oracle risk-scoring engine
(category analyzers, aggregation, endpoint validation) together with
theorems settling the specification claims.

Conventions of the embedding:
* JavaScript numbers are embedded as exact rationals (ℚ).  All thresholds,
  rule contributions and confidences in the source are decimal literals, so
  every comparison the engine performs is exact on rationals.
* Decimal rendering of numbers interpolated into finding texts
  (template literals and Number.prototype.toFixed) is abstracted by
  `fmtNum` / `jsToFixed`: the rendered digits never influence any scoring
  decision, only the determinism of the produced strings matters.
* JavaScript truthiness tests on optional inputs are made explicit:
  a missing object is `none`, a number is falsy exactly when it is `0`,
  a string is falsy exactly when it is empty.
* Division by a JavaScript zero (which yields Infinity/NaN) is embedded by
  an explicit case split wherever the source does not itself guard the
  denominator; each such spot is commented.
* The current clock (`Date.now()`, milliseconds) is passed explicitly as a
  parameter `nowMs`, making the engine a pure function of input and clock.
-/

/-- Severity tiers used by every category and the overall report. -/
inductive Severity where
  | low
  | medium
  | high
  | critical
deriving DecidableEq

/-- Position of a severity in `severityOrder = ['low','medium','high','critical']`,
as used via `indexOf` when the aggregator escalates severities. -/
def Severity.rank : Severity → Nat
  | .low => 0
  | .medium => 1
  | .high => 2
  | .critical => 3

/-- Free-form `gameTheory` annotation bag attached to some findings.  Every key
that any analyzer ever writes appears as an optional field. -/
structure GameTheoryInfo where
  concept : Option String := none
  payoffMatrix : Option String := none
  equilibria : Option (List String) := none
  vulnerability : Option String := none
  strategy : Option String := none
  dominance : Option String := none
  outcome : Option String := none
  attack : Option String := none
  cost : Option String := none
  amplifiers : Option (List String) := none
  mechanism : Option String := none
  violation : Option String := none
  fix : Option String := none
  leakage : Option String := none
  impact : Option String := none
  asymmetry : Option String := none
  centralisation : Option String := none
  examples : Option (List String) := none
deriving DecidableEq

/-- One detected issue, `src/types/risk.ts` interface `Finding`. -/
structure Finding where
  title : String
  description : String
  attackVector : Option String := none
  mitigation : Option String := none
  confidence : ℚ
  gameTheory : Option GameTheoryInfo := none
deriving DecidableEq

/-- Result of one category analyzer, interface `RiskCategory`. -/
structure RiskCategory where
  name : String
  score : ℚ
  severity : Severity
  findings : List Finding
deriving DecidableEq

/-- Vesting unlock event, interface `VestingEvent`. -/
structure VestingEvent where
  timestamp : ℚ
  amount : ℚ
  recipient : String
deriving DecidableEq

/-- Interface `TokenomicsData`; `emissionRate`, `vestingSchedule` and
`concentration` are optional in the source. -/
structure TokenomicsData where
  totalSupply : ℚ
  circulatingSupply : ℚ
  emissionRate : Option ℚ := none
  vestingSchedule : Option (List VestingEvent) := none
  concentration : Option ℚ := none
deriving DecidableEq

/-- Interface `GovernanceData`. -/
structure GovernanceData where
  quorum : ℚ
  votingPeriod : ℚ
  timelockDelay : ℚ
  proposalThreshold : ℚ
  topHolderVotingPower : ℚ
deriving DecidableEq

/-- Interface `PoolData`. -/
structure PoolData where
  address : String
  token0 : String
  token1 : String
  liquidity : ℚ
  volume24h : ℚ
  fees : ℚ
deriving DecidableEq

/-- Interface `ProtocolData`: the validated input record handed to the
analyzers (`address` and `name` already established as present). -/
structure ProtocolData where
  address : String
  name : String
  tvl : Option ℚ := none
  tokenomics : Option TokenomicsData := none
  governance : Option GovernanceData := none
  pools : Option (List PoolData) := none
deriving DecidableEq

/-- Record of the six categories of a report, object literal
`{ economic, governance, liquidity, composability, mev, gameTheory }`. -/
structure Categories where
  economic : RiskCategory
  governance : RiskCategory
  liquidity : RiskCategory
  composability : RiskCategory
  mev : RiskCategory
  gameTheory : RiskCategory
deriving DecidableEq

/-- Interface `ProtocolRiskReport`. -/
structure ProtocolRiskReport where
  protocol : String
  address : String
  timestamp : ℚ
  overallScore : ℚ
  overallSeverity : Severity
  categories : Categories
  summary : String
  recommendations : List String
  nashEquilibria : Option (List String) := none
  dominantStrategies : Option (List String) := none
deriving DecidableEq

/-- Abstraction of the decimal rendering JavaScript applies when a number is
interpolated into a template literal.  Only determinism of the rendering is
ever used. -/
def fmtNum (q : ℚ) : String := toString q

/-- Abstraction of `Number.prototype.toFixed(k)`: round to `k` decimals
(half up) and render.  The rendered digits never feed back into scoring. -/
def jsToFixed (k : Nat) (q : ℚ) : String :=
  fmtNum (((⌊q * (10 : ℚ) ^ k + 1 / 2⌋ : ℤ) : ℚ) / (10 : ℚ) ^ k)

/-- JavaScript `Math.round`: round half toward positive infinity. -/
def jsRound (q : ℚ) : ℤ := ⌊q + 1 / 2⌋

/-- JavaScript `Math.floor` on a rational, rendered as an integer. -/
def jsFloor (q : ℚ) : ℤ := ⌊q⌋

/-- Severity from a score, the private `scoreSeverity` method duplicated
verbatim in every analyzer class. -/
def scoreSeverity (score : ℚ) : Severity :=
  if score ≥ 8 then .critical
  else if score ≥ 6 then .high
  else if score ≥ 3 then .medium
  else .low

namespace EconomicAnalyzer

/-- Concentration rule of `EconomicAnalyzer.analyzeTokenomics`: Gini above
0.8 contributes 8, above 0.6 contributes 4. -/
def concentrationCheck (tokenomics : TokenomicsData) : ℚ × List Finding :=
  match tokenomics.concentration with
  | some c =>
      if c > 0.8 then
        (8, [{ title := "Extreme Token Concentration",
               description := "Token supply is highly concentrated (Gini: " ++ jsToFixed 2 c ++ "). Top holders control majority of supply.",
               attackVector := some "Whale manipulation: Large holders can crash price, front-run governance, or execute dump-and-pump schemes.",
               mitigation := some "Implement vesting schedules, progressive decentralization, or holder caps.",
               confidence := 0.9 }])
      else if c > 0.6 then
        (4, [{ title := "Moderate Token Concentration",
               description := "Token supply shows moderate concentration (Gini: " ++ jsToFixed 2 c ++ ").",
               attackVector := some "Coordinated selling pressure from top holders could cause significant price impact.",
               confidence := 0.7 }])
      else (0, [])
  | none => (0, [])

/-- Emission rule of `analyzeTokenomics`, guarded by JS truthiness of both
`emissionRate` and `circulatingSupply` (present and nonzero). -/
def emissionCheck (tokenomics : TokenomicsData) : ℚ × List Finding :=
  match tokenomics.emissionRate with
  | some e =>
      if e ≠ 0 ∧ tokenomics.circulatingSupply ≠ 0 then
        let annualDilution := e * 365 * 24 / tokenomics.circulatingSupply
        if annualDilution > 1 then
          (9, [{ title := "Hyperinflationary Emission Schedule",
                 description := "Annual emission rate (" ++ jsToFixed 0 (annualDilution * 100) ++ "%) exceeds circulating supply. Severe dilution risk.",
                 attackVector := some "Early participants can farm and dump before dilution impacts price. Death spiral risk.",
                 mitigation := some "Implement emission curve decay, buyback mechanisms, or utility sinks.",
                 confidence := 0.95 }])
        else if annualDilution > 0.5 then
          (5, [{ title := "High Emission Rate",
                 description := "Annual dilution of " ++ jsToFixed 0 (annualDilution * 100) ++ "% may outpace organic demand.",
                 attackVector := some "Sustained sell pressure from reward farming could suppress price appreciation.",
                 confidence := 0.8 }])
        else (0, [])
      else (0, [])
  | none => (0, [])

/-- Vesting-cliff rule of `analyzeTokenomics`: unlocks within 30 days of the
current clock exceeding 10 percent of circulating supply contribute 7.  A
zero circulating supply makes the JS ratio Infinity (fires whenever the
unlock total is positive) or NaN (never fires); that case split is explicit
here. -/
def vestingCheck (nowMs : ℚ) (tokenomics : TokenomicsData) : ℚ × List Finding :=
  match tokenomics.vestingSchedule with
  | some vs =>
      if vs.length > 0 then
        let now := nowMs / 1000
        let upcomingUnlocks := vs.filter fun v =>
          decide (v.timestamp > now ∧ v.timestamp < now + 30 * 24 * 3600)
        let totalUnlock := (upcomingUnlocks.map (·.amount)).sum
        let unlockPercent := totalUnlock / tokenomics.circulatingSupply * 100
        if (tokenomics.circulatingSupply = 0 ∧ totalUnlock > 0)
            ∨ (tokenomics.circulatingSupply ≠ 0 ∧ unlockPercent > 10) then
          (7, [{ title := "Major Token Unlock Imminent",
                 description := jsToFixed 1 unlockPercent ++ "% of circulating supply unlocks within 30 days.",
                 attackVector := some "Unlocking insiders may sell immediately, causing significant price impact.",
                 mitigation := some "Monitor unlock dates, consider hedging positions before unlock events.",
                 confidence := 0.85 }])
        else (0, [])
      else (0, [])
  | none => (0, [])

/-- Private method `EconomicAnalyzer.analyzeTokenomics`: the three rule
checks above; the returned score is the rule total divided by the number of
produced findings (zero when none fired). -/
def analyzeTokenomics (nowMs : ℚ) (tokenomics : TokenomicsData) : ℚ × List Finding :=
  let c := concentrationCheck tokenomics
  let e := emissionCheck tokenomics
  let v := vestingCheck nowMs tokenomics
  let score := c.1 + e.1 + v.1
  let findings := c.2 ++ e.2 ++ v.2
  (if findings.length > 0 then score / findings.length else 0, findings)

/-- Private method `analyzeFlashLoanRisk`: any pool below 100k liquidity
contributes 7. -/
def analyzeFlashLoanRisk (protocol : ProtocolData) : ℚ × List Finding :=
  match protocol.pools with
  | some pools =>
      if pools.length > 0 then
        let lowLiquidityPools := pools.filter fun p => decide (p.liquidity < 100000)
        if lowLiquidityPools.length > 0 then
          (7, [{ title := "Low Liquidity Pools Vulnerable to Manipulation",
                 description := toString lowLiquidityPools.length ++ " pool(s) have liquidity under $100k, making them susceptible to flash loan price manipulation.",
                 attackVector := some "Attacker can borrow large amounts via flash loan, manipulate pool price, exploit price-dependent operations, then repay loan in single transaction.",
                 mitigation := some "Use TWAP oracles, implement price impact limits, or require multi-block settlement.",
                 confidence := 0.8 }])
        else (0, [])
      else (0, [])
  | none => (0, [])

/-- Private method `analyzeOracleRisk`: unconditionally emits the generic
oracle-dependency finding worth 3. -/
def analyzeOracleRisk (_protocol : ProtocolData) : ℚ × List Finding :=
  (3, [{ title := "Oracle Configuration Review Required",
         description := "Unable to automatically determine oracle configuration. Manual review recommended.",
         attackVector := some "Single oracle dependency can lead to price manipulation or stale price exploitation.",
         mitigation := some "Use decentralized oracles (Pyth, Switchboard) with staleness checks and circuit breakers.",
         confidence := 0.5 }])

/-- Private method `analyzeIncentiveAlignment`: average pool utilization above
0.9 contributes 6.  The source guards each per-pool division with
`(p.liquidity || 1)`. -/
def analyzeIncentiveAlignment (protocol : ProtocolData) : ℚ × List Finding :=
  match protocol.pools with
  | some pools =>
      if pools.length > 0 then
        let avgUtilization :=
          (pools.map fun p => p.volume24h / (if p.liquidity = 0 then 1 else p.liquidity)).sum
            / pools.length
        if avgUtilization > 0.9 then
          (6, [{ title := "High Utilization Creates Withdrawal Race",
                 description := "Average pool utilization is " ++ jsToFixed 0 (avgUtilization * 100) ++ "%. In a stress event, rational actors will race to exit, potentially causing cascading liquidations.",
                 attackVector := some "Bank run dynamics: First withdrawers get full value, late withdrawers face slippage or insolvency.",
                 mitigation := some "Implement withdrawal queues, dynamic fees, or circuit breakers during high-stress periods.",
                 confidence := 0.75 }])
        else (0, [])
      else (0, [])
  | none => (0, [])

/-- Score and findings contributed by the tokenomics branch of
`EconomicAnalyzer.analyze`: it only runs when `tokenomics` is present. -/
def tokenomicsPart (nowMs : ℚ) (protocol : ProtocolData) : ℚ × List Finding :=
  match protocol.tokenomics with
  | some tk => analyzeTokenomics nowMs tk
  | none => (0, [])

/-- The tokenomics branch counts toward the check denominator only when it
runs. -/
def tokenomicsCount (protocol : ProtocolData) : Nat :=
  match protocol.tokenomics with
  | some _ => 1
  | none => 0

/-- Method `EconomicAnalyzer.analyze`: the tokenomics check only runs (and
only counts toward the denominator) when `tokenomics` is present; the other
three checks always count.  Reported score is the average capped at 10 while
severity is derived from the uncapped average, exactly as in the source. -/
def analyze (nowMs : ℚ) (protocol : ProtocolData) : RiskCategory :=
  let tok := tokenomicsPart nowMs protocol
  let flash := analyzeFlashLoanRisk protocol
  let oracle := analyzeOracleRisk protocol
  let incentive := analyzeIncentiveAlignment protocol
  let totalScore := tok.1 + flash.1 + oracle.1 + incentive.1
  let findingCount : Nat := tokenomicsCount protocol + 3
  let findings := tok.2 ++ flash.2 ++ oracle.2 ++ incentive.2
  let avgScore := if findingCount > 0 then totalScore / findingCount else 0
  { name := "Economic Risk",
    score := min 10 avgScore,
    severity := scoreSeverity avgScore,
    findings := findings }

end EconomicAnalyzer

namespace GovernanceAnalyzer

/-- Quorum rule of `GovernanceAnalyzer.analyze`: below 4 percent contributes
8, below 10 percent contributes 4. -/
def quorumCheck (gov : GovernanceData) : ℚ × List Finding :=
  if gov.quorum < 0.04 then
    (8, [{ title := "Critically Low Quorum Threshold",
           description := "Quorum of " ++ jsToFixed 1 (gov.quorum * 100) ++ "% allows proposals to pass with minimal participation.",
           attackVector := some "Attacker can pass malicious proposals during low-activity periods. Flash loan governance attacks become viable.",
           mitigation := some "Implement minimum participation thresholds, time-weighted voting, or conviction voting.",
           confidence := 0.9 }])
  else if gov.quorum < 0.1 then
    (4, [{ title := "Low Quorum Threshold",
           description := "Quorum of " ++ jsToFixed 1 (gov.quorum * 100) ++ "% may be achievable by coordinated minority.",
           attackVector := some "Well-funded attacker could accumulate enough tokens to single-handedly meet quorum.",
           confidence := 0.7 }])
  else (0, [])

/-- Timelock rule: a delay under 24 hours contributes 6. -/
def timelockCheck (gov : GovernanceData) : ℚ × List Finding :=
  if gov.timelockDelay < 24 * 3600 then
    (6, [{ title := "Short Timelock Delay",
           description := "Timelock of " ++ toString (jsFloor (gov.timelockDelay / 3600)) ++ " hours gives users limited time to exit before malicious proposals execute.",
           attackVector := some "Users may not have time to withdraw funds before a passed malicious proposal takes effect.",
           mitigation := some "Extend timelock to 48-72 hours minimum. Consider rage-quit mechanisms.",
           confidence := 0.85 }])
  else (0, [])

/-- Voting-power concentration rule: above one half contributes 9, above one
third contributes 5. -/
def votingPowerCheck (gov : GovernanceData) : ℚ × List Finding :=
  if gov.topHolderVotingPower > 0.5 then
    (9, [{ title := "Majority Voting Power Concentration",
           description := "Top holder(s) control " ++ jsToFixed 0 (gov.topHolderVotingPower * 100) ++ "% of voting power.",
           attackVector := some "Single entity can pass any proposal unilaterally. Governance is effectively centralized.",
           mitigation := some "Implement quadratic voting, delegation caps, or veto mechanisms for minority protection.",
           confidence := 0.95 }])
  else if gov.topHolderVotingPower > 0.33 then
    (5, [{ title := "High Voting Power Concentration",
           description := "Top holder(s) control " ++ jsToFixed 0 (gov.topHolderVotingPower * 100) ++ "% of voting power — enough to block proposals.",
           attackVector := some "Minority veto power can be used to extract rent or block beneficial upgrades.",
           confidence := 0.8 }])
  else (0, [])

/-- Proposal-threshold rule: above 5 percent contributes 3. -/
def proposalThresholdCheck (gov : GovernanceData) : ℚ × List Finding :=
  if gov.proposalThreshold > 0.05 then
    (3, [{ title := "High Proposal Threshold",
           description := "Proposal threshold of " ++ jsToFixed 1 (gov.proposalThreshold * 100) ++ "% excludes most token holders from proposing.",
           attackVector := some "Governance capture: only large holders can propose, leading to plutocratic outcomes.",
           mitigation := some "Lower threshold or implement delegated proposal rights.",
           confidence := 0.6 }])
  else (0, [])

/-- Method `GovernanceAnalyzer.analyze`: missing governance data yields the
fixed placeholder category; otherwise the four rules run and the score is
their total averaged over the produced findings, capped at 10, with severity
taken from the uncapped average. -/
def analyze (protocol : ProtocolData) : RiskCategory :=
  match protocol.governance with
  | none =>
      { name := "Governance Risk",
        score := 0,
        severity := .low,
        findings := [{ title := "No Governance Data Available",
                       description := "Unable to analyze governance structure. Manual review recommended.",
                       confidence := 0.3 }] }
  | some gov =>
      let q := quorumCheck gov
      let t := timelockCheck gov
      let v := votingPowerCheck gov
      let p := proposalThresholdCheck gov
      let totalScore := q.1 + t.1 + v.1 + p.1
      let findings := q.2 ++ t.2 ++ v.2 ++ p.2
      let avgScore := if findings.length > 0 then totalScore / findings.length else 0
      { name := "Governance Risk",
        score := min 10 avgScore,
        severity := scoreSeverity avgScore,
        findings := findings }

end GovernanceAnalyzer

namespace MEVAnalyzer

/-- Private method `MEVAnalyzer.analyzePool`: sandwich exposure (7 for high
turnover on a sub-500k pool, 4 for moderate turnover) and JIT targeting
(5 for a low-fee, high-liquidity pool).  Per-pool division is guarded in the
source by `(pool.liquidity || 1)`. -/
def analyzePool (pool : PoolData) : ℚ × List Finding :=
  let volumeToLiquidity := pool.volume24h / (if pool.liquidity = 0 then 1 else pool.liquidity)
  let sandwich : ℚ × List Finding :=
    if volumeToLiquidity > 0.5 ∧ pool.liquidity < 500000 then
      (7, [{ title := "High Sandwich Attack Exposure: " ++ pool.token0 ++ "/" ++ pool.token1,
             description := "Pool has " ++ jsToFixed 0 (volumeToLiquidity * 100) ++ "% daily volume relative to liquidity with only $" ++ jsToFixed 0 (pool.liquidity / 1000) ++ "k TVL.",
             attackVector := some "Searchers can profitably sandwich large trades. Expected cost to users: 0.5-2% per trade.",
             mitigation := some "Use private mempools (Jito), implement MEV-aware routing, or add minimum output protection.",
             confidence := 0.85 }])
    else if volumeToLiquidity > 0.3 then
      (4, [{ title := "Moderate Sandwich Risk: " ++ pool.token0 ++ "/" ++ pool.token1,
             description := "Active pool with " ++ jsToFixed 0 (volumeToLiquidity * 100) ++ "% daily turnover may attract MEV bots.",
             attackVector := some "Large trades (>1% of pool) are sandwichable.",
             confidence := 0.6 }])
    else (0, [])
  let jit : ℚ × List Finding :=
    if pool.fees < 0.003 ∧ pool.liquidity > 1000000 then
      (5, [{ title := "JIT Liquidity Target: " ++ pool.token0 ++ "/" ++ pool.token1,
             description := "Low fee pool (" ++ jsToFixed 2 (pool.fees * 100) ++ "%) with high liquidity attracts JIT attacks.",
             attackVector := some "JIT liquidity providers can add/remove liquidity around large trades, extracting fees from passive LPs.",
             mitigation := some "Consider higher fee tiers or concentrated liquidity with active management.",
             confidence := 0.7 }])
    else (0, [])
  (sandwich.1 + jit.1, sandwich.2 ++ jit.2)

/-- Private method `analyzeOracleMEV`: unconditionally emits the generic
oracle front-running finding worth 3. -/
def analyzeOracleMEV (_protocol : ProtocolData) : ℚ × List Finding :=
  (3, [{ title := "Oracle Update Front-Running Risk",
         description := "Protocols using on-chain oracles are vulnerable to front-running around price updates.",
         attackVector := some "Searchers monitor oracle update transactions and front-run with arbitrage or liquidations.",
         mitigation := some "Use pull oracles (Pyth), implement commit-reveal schemes, or add oracle update delays.",
         confidence := 0.5 }])

/-- Method `MEVAnalyzer.analyze`: missing or empty pools yield the fixed
placeholder category with score 2; otherwise the per-pool checks and the
oracle check run, and the score is the total averaged over the produced
findings, capped at 10, with severity from the uncapped average. -/
def analyze (protocol : ProtocolData) : RiskCategory :=
  match protocol.pools with
  | none =>
      { name := "MEV Risk",
        score := 2,
        severity := .low,
        findings := [{ title := "No Pool Data Available",
                       description := "Unable to analyze MEV exposure without pool/DEX data.",
                       confidence := 0.3 }] }
  | some pools =>
      if pools.length = 0 then
        { name := "MEV Risk",
          score := 2,
          severity := .low,
          findings := [{ title := "No Pool Data Available",
                         description := "Unable to analyze MEV exposure without pool/DEX data.",
                         confidence := 0.3 }] }
      else
        let perPool := pools.map analyzePool
        let oracle := analyzeOracleMEV protocol
        let totalScore := (perPool.map (·.1)).sum + oracle.1
        let findings := (perPool.map (·.2)).flatten ++ oracle.2
        let avgScore := if findings.length > 0 then totalScore / findings.length else 0
        { name := "MEV Risk",
          score := min 10 avgScore,
          severity := scoreSeverity avgScore,
          findings := findings }

end MEVAnalyzer

namespace GameTheoryAnalyzer

/-- Bank-run rule of `analyzeNashEquilibria`: runs when pools are present
(a JS array is truthy even when empty) and `tvl` is truthy (present and
nonzero); a liquid share of TVL under 0.3 emits the multiple-equilibria
finding. -/
def bankRunCheck (protocol : ProtocolData) : List Finding :=
  match protocol.pools, protocol.tvl with
  | some pools, some tvl =>
      if tvl ≠ 0 then
        let totalPoolLiquidity := (pools.map (·.liquidity)).sum
        let utilizationRatio := totalPoolLiquidity / tvl
        if utilizationRatio < 0.3 then
          [{ title := "Bank Run Equilibrium Exists",
             description := "Only " ++ jsToFixed 0 (utilizationRatio * 100) ++ "% of TVL is liquid. Two Nash equilibria exist: (1) Everyone stays → stable, (2) Everyone withdraws → collapse. Both are self-fulfilling.",
             attackVector := some "TRIGGER MECHANISM: Any shock (hack rumor, whale exit, market crash) can flip the system from equilibrium 1 to 2. Once the run starts, staying becomes irrational — the run completes.",
             mitigation := some "Implement withdrawal queues, dynamic exit fees, or overcollateralization to make \"stay\" dominant regardless of others\x27 actions.",
             confidence := 0.85,
             gameTheory := some { concept := some "Multiple Nash Equilibria",
                                  payoffMatrix := some "Stay/Stay: (1,1), Stay/Run: (-1,0), Run/Stay: (0,-1), Run/Run: (0,0)",
                                  equilibria := some ["(Stay, Stay)", "(Run, Run)"],
                                  vulnerability := some "Coordination failure via belief shift" } }]
        else []
      else []
  | _, _ => []

/-- Governance-deadlock rule of `analyzeNashEquilibria`: a blocking-minority
top holder (strictly between 0.33 and 0.5) with quorum above 0.2. -/
def deadlockCheck (protocol : ProtocolData) : List Finding :=
  match protocol.governance with
  | some gov =>
      if gov.topHolderVotingPower > 0.33 ∧ gov.topHolderVotingPower < 0.5 ∧ gov.quorum > 0.2 then
        [{ title := "Governance Deadlock Equilibrium",
           description := "Top holder has " ++ jsToFixed 0 (gov.topHolderVotingPower * 100) ++ "% (blocking minority) while quorum requires " ++ jsToFixed 0 (gov.quorum * 100) ++ "%. Nash equilibrium is permanent stalemate.",
           attackVector := some "EXPLOIT: Attacker accumulates blocking stake, then extracts rent by threatening to block beneficial proposals unless paid. Governance hostage situation.",
           mitigation := some "Implement optimistic governance (proposals pass unless vetoed), or conviction voting to break deadlocks.",
           confidence := 0.75,
           gameTheory := some { concept := some "Veto Player Deadlock",
                                equilibria := some ["Stalemate (no proposals pass)"],
                                vulnerability := some "Rent extraction via blocking power" } }]
      else []
  | none => []

/-- Private method `analyzeNashEquilibria`. -/
def analyzeNashEquilibria (protocol : ProtocolData) : List Finding :=
  bankRunCheck protocol ++ deadlockCheck protocol

/-- Farm-and-dump rule of `analyzeDominantStrategies`: daily dilution above
1 percent, guarded by truthiness of `emissionRate` and `circulatingSupply`. -/
def farmAndDumpCheck (protocol : ProtocolData) : List Finding :=
  match protocol.tokenomics with
  | some tokenomics =>
      match tokenomics.emissionRate with
      | some e =>
          if e ≠ 0 ∧ tokenomics.circulatingSupply ≠ 0 then
            let dailyDilution := e * 24 / tokenomics.circulatingSupply
            if dailyDilution > 0.01 then
              [{ title := "Dominant Strategy: Farm-and-Dump",
                 description := "Daily emission dilution of " ++ jsToFixed 2 (dailyDilution * 100) ++ "% creates a dominant strategy to sell rewards immediately.",
                 attackVector := some "DOMINANT STRATEGY PROOF: If you hold rewards, you lose value to dilution. If you sell, you capture value. Selling is strictly better regardless of others\x27 actions → death spiral.",
                 mitigation := some "Implement ve-tokenomics (locking for voting power), real yield from protocol fees, or aggressive buyback-and-burn.",
                 confidence := 0.9,
                 gameTheory := some { concept := some "Strictly Dominant Strategy",
                                      strategy := some "Sell immediately upon receiving rewards",
                                      dominance := some "Strictly dominant — always better regardless of others",
                                      outcome := some "Sustained sell pressure → price decline → reduced TVL → reduced rewards → spiral" } }]
            else []
          else []
      | none => []
  | none => []

/-- Sandwich-threshold test reused by the MEV-extraction rule.  The source
divides by `p.liquidity` without a guard: a zero-liquidity pool gives the
JS ratio Infinity (passes whenever the volume is positive) or NaN (never
passes); that case split is explicit here. -/
def isVulnerablePool (p : PoolData) : Bool :=
  (if p.liquidity = 0 then p.volume24h > 0 else p.volume24h / p.liquidity > 0.3)
    ∧ p.liquidity < 500000

/-- MEV-extraction rule of `analyzeDominantStrategies`: any pool meeting the
sandwich thresholds.  Note that this finding carries a `strategy` but no
`dominance` key. -/
def mevExtractionCheck (protocol : ProtocolData) : List Finding :=
  match protocol.pools with
  | some pools =>
      let vulnerablePools := pools.filter isVulnerablePool
      if vulnerablePools.length > 0 then
        [{ title := "Dominant Strategy: MEV Extraction",
           description := toString vulnerablePools.length ++ " pool(s) have profitable sandwich conditions. Searchers have dominant strategy to extract.",
           attackVector := some "EXPECTED VALUE: For searchers, sandwiching is +EV regardless of competition. Nash equilibrium is maximum extraction until marginal profit = gas cost.",
           mitigation := some "Private mempools, MEV-share mechanisms, or batch auctions to redirect value to users.",
           confidence := 0.8,
           gameTheory := some { concept := some "Tragedy of the Commons",
                                strategy := some "Extract maximum MEV",
                                outcome := some "Users bear cost, LPs exit, liquidity degrades" } }]
      else []
  | none => []

/-- Private method `analyzeDominantStrategies`. -/
def analyzeDominantStrategies (protocol : ProtocolData) : List Finding :=
  farmAndDumpCheck protocol ++ mevExtractionCheck protocol

/-- Schelling-point rule of `analyzeCoordinationGames`: a voting period under
five days. -/
def schellingCheck (protocol : ProtocolData) : List Finding :=
  match protocol.governance with
  | some gov =>
      if gov.votingPeriod < 5 * 24 * 3600 then
        [{ title := "Schelling Point Attack Surface",
           description := "Short voting period (" ++ toString (jsFloor (gov.votingPeriod / 3600)) ++ "h) enables coordination attacks around public focal points.",
           attackVector := some "ATTACK: Attacker publicly announces \"vote YES on proposal X at block Y\". This creates a Schelling point — voters coordinate on the announced strategy because they expect others to. Flash loans amplify.",
           mitigation := some "Implement commit-reveal voting, time-weighted voting power, or minimum deliberation periods.",
           confidence := 0.7,
           gameTheory := some { concept := some "Schelling Point / Focal Point",
                                vulnerability := some "Public announcements become self-fulfilling coordination devices",
                                amplifiers := some ["Flash loans", "Social media", "Whale wallets"] } }]
      else []
  | none => []

/-- Cross-venue oracle rule of `analyzeCoordinationGames`: at least two pools
below 100k liquidity. -/
def crossVenueCheck (protocol : ProtocolData) : List Finding :=
  match protocol.pools with
  | some pools =>
      if pools.length > 0 then
        let lowLiquidityPools := pools.filter fun p => decide (p.liquidity < 100000)
        if lowLiquidityPools.length ≥ 2 then
          [{ title := "Cross-Venue Oracle Manipulation",
             description := toString lowLiquidityPools.length ++ " low-liquidity pools can be manipulated simultaneously to move aggregate price oracles.",
             attackVector := some "COORDINATION: Attacker manipulates multiple venues in same block. TWAP oracles that aggregate see consistent \"real\" price movement. Liquidations triggered on false signals.",
             mitigation := some "Use median oracles, implement circuit breakers, require minimum source liquidity.",
             confidence := 0.75,
             gameTheory := some { concept := some "Coordinated Deviation",
                                  attack := some "Multi-venue simultaneous manipulation",
                                  cost := some "Flash loan fees only — capital efficient" } }]
        else []
      else []
  | none => []

/-- Private method `analyzeCoordinationGames`. -/
def analyzeCoordinationGames (protocol : ProtocolData) : List Finding :=
  schellingCheck protocol ++ crossVenueCheck protocol

/-- Incentive-compatibility rule of `analyzeMechanismDesign`: emitted whenever
governance data is present. -/
def incentiveCompatibilityCheck (protocol : ProtocolData) : List Finding :=
  match protocol.governance with
  | some _ =>
      [{ title := "Incentive Compatibility Analysis",
         description := "Governance votes are public and non-binding pre-vote. Users can misrepresent preferences to manipulate expectations.",
         attackVector := some "IC VIOLATION: Voters can vote against their true preference if they believe it influences others (strategic voting). True preferences are not revealed.",
         mitigation := some "Implement quadratic voting, futarchy (prediction markets), or conviction voting to align revealed and true preferences.",
         confidence := 0.6,
         gameTheory := some { concept := some "Incentive Compatibility (Revelation Principle)",
                              violation := some "Strategic voting is rational",
                              fix := some "Mechanism should make truth-telling dominant" } }]
  | none => []

/-- Value-leakage rule of `analyzeMechanismDesign`: estimated MEV of half a
percent of total volume exceeding half the LP fee revenue. -/
def valueLeakageCheck (protocol : ProtocolData) : List Finding :=
  match protocol.pools with
  | some pools =>
      let totalVolume := (pools.map (·.volume24h)).sum
      let totalFees := (pools.map fun p => p.volume24h * p.fees).sum
      let mevEstimate := totalVolume * 0.005
      if mevEstimate > totalFees * 0.5 then
        [{ title := "Value Leakage to External Extractors",
           description := "Estimated MEV extraction (~$" ++ jsToFixed 0 mevEstimate ++ "/day) exceeds " ++ jsToFixed 0 (mevEstimate / totalFees * 100) ++ "% of LP fee revenue.",
           attackVector := some "BUDGET IMBALANCE: Protocol participants (LPs, traders) generate value that leaks to non-participants (MEV searchers, builders). Negative-sum for protocol ecosystem.",
           mitigation := some "MEV internalization via protocol-owned searchers, MEV-share, or batch auctions.",
           confidence := 0.65,
           gameTheory := some { concept := some "Budget Balance / Value Leakage",
                                leakage := some "MEV to external searchers",
                                impact := some "LPs subsidize searcher profits" } }]
      else []
  | none => []

/-- Private method `analyzeMechanismDesign`. -/
def analyzeMechanismDesign (protocol : ProtocolData) : List Finding :=
  incentiveCompatibilityCheck protocol ++ valueLeakageCheck protocol

/-- Liquidation-cascade rule of `analyzeMultiAgentDynamics`: liquid share of
TVL under 0.2, guarded by truthiness of `tvl` and presence of pools. -/
def cascadeCheck (protocol : ProtocolData) : List Finding :=
  match protocol.tvl, protocol.pools with
  | some tvl, some pools =>
      if tvl ≠ 0 then
        let totalLiquidity := (pools.map (·.liquidity)).sum
        let liquidityRatio := totalLiquidity / tvl
        if liquidityRatio < 0.2 then
          [{ title := "Liquidation Cascade Dynamics",
             description := "Low liquidity ratio (" ++ jsToFixed 0 (liquidityRatio * 100) ++ "%) creates conditions for cascading liquidations.",
             attackVector := some "CASCADE MECHANISM: Initial liquidation → sell pressure → price drop → more positions underwater → more liquidations → accelerating spiral. Each agent\x27s rational exit worsens conditions for remaining agents.",
             mitigation := some "Implement gradual liquidations, liquidation insurance funds, or dynamic collateral requirements based on liquidity conditions.",
             confidence := 0.8,
             gameTheory := some { concept := some "Negative Externality Cascade",
                                  mechanism := some "Each exit imposes cost on remaining participants",
                                  outcome := some "Race to exit first" } }]
        else []
      else []
  | _, _ => []

/-- Frontrunning arms-race rule of `analyzeMultiAgentDynamics`: any pool with
daily volume above 100k. -/
def armsRaceCheck (protocol : ProtocolData) : List Finding :=
  match protocol.pools with
  | some pools =>
      if pools.any fun p => decide (p.volume24h > 100000) then
        [{ title := "Frontrunning Arms Race",
           description := "High-volume pools incentivize competitive latency optimization among searchers.",
           attackVector := some "ARMS RACE: Searchers invest in faster infrastructure → margins compress → only well-capitalized players survive → centralization of MEV extraction → potential for censorship/manipulation.",
           mitigation := some "Time-based ordering (batch auctions), encrypted mempools, or MEV-smoothing mechanisms.",
           confidence := 0.7,
           gameTheory := some { concept := some "Red Queen Effect / Arms Race",
                                outcome := some "Socially wasteful investment in speed",
                                centralisation := some "Tends toward oligopoly of sophisticated actors" } }]
      else []
  | none => []

/-- Information-asymmetry rule of `analyzeMultiAgentDynamics`: a timelock
under 48 hours. -/
def asymmetryCheck (protocol : ProtocolData) : List Finding :=
  match protocol.governance with
  | some gov =>
      if gov.timelockDelay < 48 * 3600 then
        [{ title := "Information Asymmetry Exploitation",
           description := "Short timelock (" ++ toString (jsFloor (gov.timelockDelay / 3600)) ++ "h) favors sophisticated actors who monitor proposals continuously.",
           attackVector := some "ASYMMETRY: Sophisticated actors exit before harmful proposals execute. Retail users with slower information processing bear the cost. Creates adverse selection — only naive capital remains.",
           mitigation := some "Extend timelocks, implement proposal notification systems, or add automatic position unwinding for impacted users.",
           confidence := 0.65,
           gameTheory := some { concept := some "Adverse Selection / Lemon Problem",
                                asymmetry := some "Speed of information processing",
                                outcome := some "Sophisticated actors extract from naive actors" } }]
      else []
  | none => []

/-- Private method `analyzeMultiAgentDynamics`. -/
def analyzeMultiAgentDynamics (protocol : ProtocolData) : List Finding :=
  cascadeCheck protocol ++ armsRaceCheck protocol ++ asymmetryCheck protocol

/-- Private method `findingSeverity`: severity of one finding from its
confidence. -/
def findingSeverity (confidence : ℚ) : Severity :=
  if confidence ≥ 0.85 then .critical
  else if confidence ≥ 0.7 then .high
  else if confidence ≥ 0.5 then .medium
  else .low

/-- Severity weights `{ critical: 10, high: 7, medium: 4, low: 1 }` used by
the confidence-weighted scoring. -/
def severityWeight : Severity → ℚ
  | .critical => 10
  | .high => 7
  | .medium => 4
  | .low => 1

/-- Contribution of one finding to the game-theory total: severity weight of
its (defaulted) confidence times that confidence; `f.confidence || 0.5`
defaults exactly a zero confidence. -/
def gtContribution (f : Finding) : ℚ :=
  let c := if f.confidence = 0 then 0.5 else f.confidence
  severityWeight (findingSeverity c) * c

/-- All findings of the five sub-analyses of `GameTheoryAnalyzer.analyze`. -/
def collectFindings (protocol : ProtocolData) : List Finding :=
  analyzeNashEquilibria protocol ++ analyzeDominantStrategies protocol
    ++ analyzeCoordinationGames protocol ++ analyzeMechanismDesign protocol
    ++ analyzeMultiAgentDynamics protocol

/-- Method `GameTheoryAnalyzer.analyze`: confidence-weighted severity sum
averaged over the findings and capped at 10; here both the reported score
and the severity use the capped average. -/
def analyze (protocol : ProtocolData) : RiskCategory :=
  let findings := collectFindings protocol
  let totalScore := findings.foldl (fun sum f => sum + gtContribution f) 0
  let avgScore := if findings.length > 0 then min 10 (totalScore / findings.length) else 0
  { name := "Game-Theoretic Risk",
    score := avgScore,
    severity := scoreSeverity avgScore,
    findings := findings }

end GameTheoryAnalyzer

/-- JavaScript `String.prototype.toLowerCase`, implemented over the character
list (the analyzers only feed it protocol names and token symbols). -/
def jsToLower (s : String) : String := ⟨s.data.map Char.toLower⟩

/-- Prefix test over character lists. -/
def charListHasPrefix : List Char → List Char → Bool
  | _, [] => true
  | [], _ :: _ => false
  | c :: cs, p :: ps => c == p && charListHasPrefix cs ps

/-- Substring occurrence over character lists: the pattern occurs at some
position (an empty pattern always occurs, as with the JS method). -/
def charListIncludes (pat : List Char) : List Char → Bool
  | [] => charListHasPrefix [] pat
  | c :: cs => charListHasPrefix (c :: cs) pat || charListIncludes pat cs

/-- JavaScript `String.prototype.includes`: substring containment test. -/
def strIncludes (s pat : String) : Bool := charListIncludes pat.data s.data

namespace ComposabilityAnalyzer

/-- Private method `analyzeDependencyDepth`: name-substring heuristics for
yield aggregators, liquid staking and derivatives. -/
def analyzeDependencyDepth (protocol : ProtocolData) : List Finding :=
  let lower := jsToLower protocol.name
  let isYieldAggregator := strIncludes lower "yield" || strIncludes lower "vault" || strIncludes lower "farm"
  let isLiquidStaking := strIncludes lower "staked" || strIncludes lower "liquid" || strIncludes lower "lst"
  let isDerivative := strIncludes lower "perp" || strIncludes lower "option" || strIncludes lower "synthetic"
  (if isYieldAggregator then
    [{ title := "Yield Aggregator Dependency Stack",
       description := "Yield aggregators typically depend on 2-4 underlying protocols, creating cascading failure risk.",
       attackVector := some "DEPENDENCY CASCADE: If any underlying protocol is exploited, paused, or depegs, the aggregator inherits that risk. Users may not understand the full dependency tree.",
       mitigation := some "Document full dependency chain. Implement circuit breakers. Diversify across independent protocols. Monitor underlying protocol health.",
       confidence := 0.7,
       gameTheory := some { concept := some "Cascading Failure",
                            vulnerability := some "Single point of failure amplified through dependency chain",
                            mechanism := some "Failure propagates upward through composability stack" } }]
   else [])
  ++ (if isLiquidStaking then
    [{ title := "Liquid Staking Derivative Risk",
       description := "LSTs depend on validator performance, withdrawal queues, and peg maintenance mechanisms.",
       attackVector := some "DEPEG SCENARIO: If validators are slashed, withdrawals delayed, or market loses confidence, LST can trade below underlying value. Arbitrageurs may not restore peg if withdrawal queue is too long.",
       mitigation := some "Monitor validator performance. Implement insurance mechanisms. Maintain liquid reserves for redemptions.",
       confidence := 0.65,
       gameTheory := some { concept := some "Peg Stability Game",
                            equilibria := some ["Peg maintained (confidence)", "Depeg spiral (panic)"],
                            vulnerability := some "Confidence-dependent stability" } }]
   else [])
  ++ (if isDerivative then
    [{ title := "Derivative Protocol Layered Risk",
       description := "Derivatives inherit underlying asset risk plus additional mechanism complexity.",
       attackVector := some "ORACLE + MARGIN ATTACK: Manipulate underlying price briefly to trigger liquidations, then profit from forced selling. Complexity increases attack surface.",
       mitigation := some "Use manipulation-resistant oracles. Implement gradual liquidations. Add margin call delays.",
       confidence := 0.75,
       gameTheory := some { concept := some "Mechanism Complexity Risk",
                            vulnerability := some "More moving parts = more attack surface",
                            outcome := some "Sophisticated attackers exploit mechanism interactions" } }]
   else [])

/-- Private method `analyzeOracleConcentration`: TVL above 10M (truthiness of
`tvl` is implied by the comparison). -/
def analyzeOracleConcentration (protocol : ProtocolData) : List Finding :=
  match protocol.tvl with
  | some tvl =>
      if tvl > 10000000 then
        [{ title := "Oracle Dependency Analysis Required",
           description := "Protocol with $" ++ jsToFixed 0 (tvl / 1000000) ++ "M TVL likely depends on price oracles for critical operations.",
           attackVector := some "ORACLE MANIPULATION: If protocol uses single oracle or low-liquidity price sources, attackers can manipulate prices to trigger liquidations or favorable trades.",
           mitigation := some "Use multiple independent oracles. Implement TWAP. Add circuit breakers for extreme price moves. Verify oracle source liquidity.",
           confidence := 0.6,
           gameTheory := some { concept := some "Single Point of Failure",
                                attack := some "Oracle manipulation for downstream exploitation",
                                cost := some "Cost of moving oracle price temporarily" } }]
      else []
  | none => []

/-- Private method `analyzeLiquidityFragmentation`: more than three pools with
a majority of pools below half the mean liquidity. -/
def analyzeLiquidityFragmentation (protocol : ProtocolData) : List Finding :=
  match protocol.pools with
  | some pools =>
      if pools.length > 3 then
        let totalLiquidity := (pools.map (·.liquidity)).sum
        let avgLiquidity := totalLiquidity / pools.length
        let smallPools := pools.filter fun p => decide (p.liquidity < avgLiquidity * 0.5)
        if (smallPools.length : ℚ) > (pools.length : ℚ) * 0.5 then
          [{ title := "Liquidity Fragmentation Risk",
             description := "Liquidity is fragmented across " ++ toString pools.length ++ " pools, with " ++ toString smallPools.length ++ " pools below average size.",
             attackVector := some "FRAGMENTATION EXPLOIT: Fragmented liquidity means (1) worse execution for traders, (2) easier price manipulation per-venue, (3) arbitrageurs extract value moving between venues.",
             mitigation := some "Consolidate liquidity to fewer venues. Use aggregators for routing. Incentivize primary liquidity venue.",
             confidence := 0.6,
             gameTheory := some { concept := some "Coordination Failure",
                                  outcome := some "Suboptimal equilibrium where liquidity is dispersed",
                                  vulnerability := some "Each venue is independently manipulable" } }]
        else []
      else []
  | none => []

/-- Private method `analyzeCollateralChain`: lending-pattern name with TVL
above 50M. -/
def analyzeCollateralChain (protocol : ProtocolData) : List Finding :=
  let lower := jsToLower protocol.name
  let isLending := strIncludes lower "lend" || strIncludes lower "borrow" || strIncludes lower "aave"
    || strIncludes lower "compound" || strIncludes lower "margin"
  match protocol.tvl with
  | some tvl =>
      if isLending ∧ tvl > 50000000 then
        [{ title := "Collateral Chain / Rehypothecation Risk",
           description := "Lending protocols enable recursive borrowing: deposit A, borrow B, deposit B elsewhere, borrow more. Creates hidden leverage.",
           attackVector := some "LEVERAGE CASCADE: In a downturn, recursive positions unwind simultaneously. Each liquidation triggers more liquidations. Actual leverage in system may be 3-10x what individual positions show.",
           mitigation := some "Track cross-protocol positions. Implement global exposure limits. Monitor system-wide leverage metrics. Add liquidation delays during high-stress periods.",
           confidence := 0.7,
           gameTheory := some { concept := some "Hidden Leverage / Systemic Risk",
                                mechanism := some "Recursive borrowing creates correlated positions",
                                vulnerability := some "Cascade liquidations amplify price moves",
                                equilibria := some ["Stable leverage (calm markets)", "Deleveraging spiral (stress)"] } }]
      else []
  | none => []

/-- Private method `analyzeReentrancyEconomics`: emitted whenever at least one
pool is present. -/
def analyzeReentrancyEconomics (protocol : ProtocolData) : List Finding :=
  match protocol.pools with
  | some pools =>
      if pools.length > 0 then
        [{ title := "Cross-Contract Interaction Risk",
           description := "Protocol integrates with external contracts (DEXes, oracles, tokens), creating re-entrancy and callback attack surfaces.",
           attackVector := some "ECONOMIC RE-ENTRANCY: Even without code bugs, economic re-entrancy is possible. Example: Flash loan → manipulate pool → trigger protocol action → profit from manipulated state → repay loan.",
           mitigation := some "Implement checks-effects-interactions pattern. Use reentrancy guards. Verify state consistency after external calls. Consider flash loan protection.",
           confidence := 0.55,
           gameTheory := some { concept := some "Atomicity Exploitation",
                                attack := some "Use single transaction to create temporary invalid states",
                                cost := some "Flash loan fees only",
                                outcome := some "Extract value from state inconsistencies" } }]
      else []
  | none => []

/-- Private method `analyzeBridgeRisk`: bridge-pattern names and wrapped-asset
token symbols. -/
def analyzeBridgeRisk (protocol : ProtocolData) : List Finding :=
  let lower := jsToLower protocol.name
  let isBridge := strIncludes lower "bridge" || strIncludes lower "wormhole"
    || strIncludes lower "layerzero" || strIncludes lower "cross"
  let usesWrappedAssets :=
    match protocol.pools with
    | some pools => pools.any fun p =>
        strIncludes (jsToLower p.token0) "w" || strIncludes (jsToLower p.token1) "w"
          || strIncludes (jsToLower p.token0) "bridge" || strIncludes (jsToLower p.token1) "bridge"
    | none => false
  (if isBridge then
    [{ title := "Bridge Protocol - Maximum Composability Risk",
       description := "Bridges are the highest-risk composability component. They depend on multiple chains, validators/relayers, and have been the target of largest DeFi exploits.",
       attackVector := some "BRIDGE EXPLOITS: Fake deposit proofs, validator collusion, message replay, incomplete finality checks. Bridges hold locked assets that can be drained with a single exploit.",
       mitigation := some "Use battle-tested bridges only. Limit exposure to bridged assets. Verify bridge security model (optimistic vs ZK vs validator set). Monitor bridge TVL and activity anomalies.",
       confidence := 0.85,
       gameTheory := some { concept := some "Trust Minimization Failure",
                            vulnerability := some "Bridges introduce trusted components into trustless systems",
                            impact := some "Total loss of bridged assets possible",
                            examples := some ["Ronin: $625M", "Wormhole: $320M", "Nomad: $190M"] } }]
   else [])
  ++ (if usesWrappedAssets then
    [{ title := "Wrapped Asset Dependency",
       description := "Protocol uses wrapped/bridged assets that depend on external bridge security.",
       attackVector := some "WRAPPED ASSET DEPEG: If the bridge backing wrapped assets is exploited, wrapped tokens become worthless while appearing to have value. Protocol may hold unbacked IOUs.",
       mitigation := some "Verify bridge backing. Monitor bridge health. Consider native assets where possible. Implement wrapped asset exposure limits.",
       confidence := 0.6,
       gameTheory := some { concept := some "Counterparty Risk",
                            vulnerability := some "Wrapped asset value depends on bridge solvency",
                            outcome := some "Depeg if bridge is exploited or insolvent" } }]
   else [])

/-- All findings of the six sub-analyses of `ComposabilityAnalyzer.analyze`. -/
def composabilityFindings (protocol : ProtocolData) : List Finding :=
  analyzeDependencyDepth protocol ++ analyzeOracleConcentration protocol
    ++ analyzeLiquidityFragmentation protocol ++ analyzeCollateralChain protocol
    ++ analyzeReentrancyEconomics protocol ++ analyzeBridgeRisk protocol

/-- Method `ComposabilityAnalyzer.analyze`: score is the mean of
`confidence * 10` over the findings, capped at 10; both the reported score
and the severity use the capped average. -/
def analyze (protocol : ProtocolData) : RiskCategory :=
  let findings := composabilityFindings protocol
  let totalScore := findings.foldl (fun sum f => sum + f.confidence * 10) (0 : ℚ)
  let avgScore := if findings.length > 0 then min 10 (totalScore / findings.length) else 0
  { name := "Composability Risk",
    score := avgScore,
    severity := scoreSeverity avgScore,
    findings := findings }

end ComposabilityAnalyzer

namespace LiquidityAnalyzer

/-- Private method `LiquidityAnalyzer.analyzePoolLiquidity`
(`dist/analyzers/liquidity.js`): thin liquidity (8 for a pool under 10k at
confidence 0.9, 4 under 100k at confidence 0.7) and unsustainable fee APR
(3 at confidence 0.6).  The APR division `volume24h*fees*365 / liquidity` is
unguarded in the source: a zero-liquidity pool gives NaN or ±Infinity, which
is below 0.02 exactly when the fee revenue is negative; that case split is
explicit here.  The second attackVector text is a single-quoted (not
template) literal in the source, so its placeholder braces are verbatim. -/
def analyzePoolLiquidity (pool : PoolData) : ℚ × List Finding :=
  let thin : ℚ × List Finding :=
    if pool.liquidity < 10000 then
      (8, [{ title := "Critically Thin Liquidity: " ++ pool.token0 ++ "/" ++ pool.token1,
             description := "Pool has only $" ++ fmtNum pool.liquidity ++ " in liquidity.",
             attackVector := some "Any significant trade will cause extreme slippage. Easy to manipulate for oracle attacks.",
             mitigation := some "Avoid using this pool for price discovery. Add liquidity mining incentives.",
             confidence := 0.9 }])
    else if pool.liquidity < 100000 then
      (4, [{ title := "Low Liquidity Pool: " ++ pool.token0 ++ "/" ++ pool.token1,
             description := "Pool has $" ++ jsToFixed 0 (pool.liquidity / 1000) ++ "k in liquidity — vulnerable to large trades.",
             attackVector := some "Trades over $$\x7b(pool.liquidity * 0.01).toFixed(0)\x7d will incur >1% slippage.",
             confidence := 0.7 }])
    else (0, [])
  let dailyFeeRevenue := pool.volume24h * pool.fees
  let annualizedAPR := dailyFeeRevenue * 365 / pool.liquidity
  let apr : ℚ × List Finding :=
    if (pool.liquidity = 0 ∧ dailyFeeRevenue < 0)
        ∨ (pool.liquidity ≠ 0 ∧ annualizedAPR < 0.02) then
      (3, [{ title := "Unsustainable LP Economics: " ++ pool.token0 ++ "/" ++ pool.token1,
             description := "Fee APR of " ++ jsToFixed 1 (annualizedAPR * 100) ++ "% may not compensate LPs for impermanent loss risk.",
             attackVector := some "Rational LPs will withdraw, reducing liquidity over time. Death spiral risk.",
             mitigation := some "Add token incentives, increase fee tier, or improve volume through integrations.",
             confidence := 0.6 }])
    else (0, [])
  (thin.1 + apr.1, thin.2 ++ apr.2)

/-- Private method `analyzeImpermanentLoss`: pools whose token symbols
mention none of the (case-sensitive) substrings USD, USDC, USDT are
volatile-volatile pairs; more than 70 percent of them contributes 5. -/
def analyzeImpermanentLoss (pools : List PoolData) : ℚ × List Finding :=
  let volatilePairs := pools.filter fun p =>
    !strIncludes p.token0 "USD" && !strIncludes p.token1 "USD"
      && !strIncludes p.token0 "USDC" && !strIncludes p.token1 "USDC"
      && !strIncludes p.token0 "USDT" && !strIncludes p.token1 "USDT"
  if (volatilePairs.length : ℚ) > (pools.length : ℚ) * 0.7 then
    (5, [{ title := "High Impermanent Loss Exposure",
           description := toString volatilePairs.length ++ " of " ++ toString pools.length ++ " pools are volatile-volatile pairs with no stablecoin anchor.",
           attackVector := some "LPs face significant IL during price divergence. Can lose 5-25% vs holding during volatile periods.",
           mitigation := some "Consider single-sided staking, concentrated liquidity management, or IL protection mechanisms.",
           confidence := 0.7 }])
  else (0, [])

/-- Concentration rule inlined at the top of `LiquidityAnalyzer.analyze`:
`Math.max` of the pool liquidities over the total, above 0.8 contributes 7.
The division is unguarded in the source: a zero total gives NaN or
±Infinity, and the comparison with 0.8 then holds exactly when the largest
pool is positive; that case split is explicit here.  `Math.max` over the
(nonempty) pool list is the fold from its head. -/
def concentrationRuleCheck (pools : List PoolData) : ℚ × List Finding :=
  let liqs := pools.map (·.liquidity)
  let totalLiquidity : ℚ := liqs.sum
  let largestPool : ℚ := liqs.foldl max (liqs.headD 0)
  let concentration := largestPool / totalLiquidity
  if (totalLiquidity = 0 ∧ largestPool > 0)
      ∨ (totalLiquidity ≠ 0 ∧ concentration > 0.8) then
    (7, [{ title := "Extreme Liquidity Concentration",
           description := jsToFixed 0 (concentration * 100) ++ "% of liquidity is in a single pool. Protocol health depends on one venue.",
           attackVector := some "If the dominant pool is drained or depegs, the entire protocol loses liquidity. Single point of failure.",
           mitigation := some "Incentivize liquidity across multiple pools/DEXes. Implement liquidity mining diversification.",
           confidence := 0.85 }])
  else (0, [])

/-- Liquidity/TVL mismatch rule inlined in `analyze`, guarded by JS
truthiness of `tvl` (present and nonzero): total pool liquidity below a
tenth of the stated TVL contributes 6. -/
def tvlMismatchCheck (tvl : Option ℚ) (pools : List PoolData) : ℚ × List Finding :=
  let totalLiquidity : ℚ := (pools.map (·.liquidity)).sum
  match tvl with
  | some t =>
      if t ≠ 0 ∧ totalLiquidity < t * 0.1 then
        (6, [{ title := "Liquidity-TVL Mismatch",
               description := "Tradeable liquidity ($" ++ jsToFixed 1 (totalLiquidity / 1000000) ++ "M) is only " ++ jsToFixed 0 (totalLiquidity / t * 100) ++ "% of reported TVL ($" ++ jsToFixed 1 (t / 1000000) ++ "M).",
               attackVector := some "Exit liquidity crisis: Users may not be able to withdraw at stated values. Paper gains vs realizable value.",
               mitigation := some "Verify TVL methodology. Check for locked/illiquid portions. Implement withdrawal limits.",
               confidence := 0.75 }])
      else (0, [])
  | none => (0, [])

/-- Method `LiquidityAnalyzer.analyze` (`dist/analyzers/liquidity.js`, the
compiled implementation shipped in the repository): missing or empty pools
yield the fixed placeholder category with score 2; otherwise the
concentration and TVL-mismatch rules, the per-pool liquidity checks and the
impermanent-loss check run, and the score is the total averaged over the
produced findings, capped at 10, with severity from the uncapped average. -/
def analyze (protocol : ProtocolData) : RiskCategory :=
  let placeholder : RiskCategory :=
    { name := "Liquidity Risk",
      score := 2,
      severity := .low,
      findings := [{ title := "No Liquidity Pool Data",
                     description := "Unable to analyze liquidity risks without pool data.",
                     confidence := 0.3 }] }
  match protocol.pools with
  | none => placeholder
  | some pools =>
      if pools.length = 0 then placeholder
      else
        let concentration := concentrationRuleCheck pools
        let tvlMismatch := tvlMismatchCheck protocol.tvl pools
        let perPool := pools.map analyzePoolLiquidity
        let il := analyzeImpermanentLoss pools
        let totalScore := concentration.1 + tvlMismatch.1 + (perPool.map (·.1)).sum + il.1
        let findings := concentration.2 ++ tvlMismatch.2
          ++ (perPool.map (·.2)).flatten ++ il.2
        let avgScore := if findings.length > 0 then totalScore / findings.length else 0
        { name := "Liquidity Risk",
          score := min 10 avgScore,
          severity := scoreSeverity avgScore,
          findings := findings }

theorem analyzePoolLiquidity_fst_nonneg (p : PoolData) :
    0 ≤ (analyzePoolLiquidity p).1 := by
  unfold analyzePoolLiquidity
  dsimp only
  apply add_nonneg
  all_goals repeat' split
  all_goals norm_num

theorem analyzeImpermanentLoss_fst_nonneg (pools : List PoolData) :
    0 ≤ (analyzeImpermanentLoss pools).1 := by
  unfold analyzeImpermanentLoss
  dsimp only
  repeat' split
  all_goals norm_num

theorem concentrationRuleCheck_fst_nonneg (pools : List PoolData) :
    0 ≤ (concentrationRuleCheck pools).1 := by
  unfold concentrationRuleCheck
  dsimp only
  repeat' split
  all_goals norm_num

theorem tvlMismatchCheck_fst_nonneg (tvl : Option ℚ) (pools : List PoolData) :
    0 ≤ (tvlMismatchCheck tvl pools).1 := by
  unfold tvlMismatchCheck
  dsimp only
  repeat' split
  all_goals norm_num

end LiquidityAnalyzer

/-- Stable descending insertion by confidence, embedding the JS stable
`sort((a, b) => (b.confidence || 0) - (a.confidence || 0))` (the `|| 0`
default never changes the comparison on rationals). -/
def insertByConfDesc (f : Finding) : List Finding → List Finding
  | [] => [f]
  | g :: t => if g.confidence > f.confidence then g :: insertByConfDesc f t else f :: g :: t

/-- Stable sort of findings by descending confidence. -/
def sortByConfDesc : List Finding → List Finding
  | [] => []
  | f :: t => insertByConfDesc f (sortByConfDesc t)

/-- First-occurrence deduplication, embedding `[...new Set(xs)]`. -/
def dedupFirst (l : List String) : List String :=
  l.foldl (fun acc s => if s ∈ acc then acc else acc ++ [s]) []

/-- Function `generateSummary` of `dist/index.js`. -/
def generateSummary (name : String) (allFindings criticalFindings : List Finding)
    (gameTheory : RiskCategory) : String :=
  let gameTheoryIssues := gameTheory.findings.filter fun f => decide (f.confidence > 0.6)
  let base := "Analyzed " ++ name ++ ": Found " ++ toString allFindings.length
    ++ " potential risk factors. " ++ toString criticalFindings.length
    ++ " high-confidence findings require immediate attention. "
  if gameTheoryIssues.length > 0 then
    let concepts := dedupFirst
      (((gameTheoryIssues.map fun f => f.gameTheory.bind (·.concept)).filterMap id).filter
        (· ≠ ""))
    base ++ "Game-theoretic vulnerabilities detected: "
      ++ String.intercalate ", " (concepts.take 3) ++ "."
  else base

/-- Function `generateRecommendations` of `dist/index.js`: high-confidence
findings sorted by descending confidence, the top five rendered as the
mitigation (falling back to the title when the mitigation is falsy), with a
final `filter(Boolean)` dropping empty strings. -/
def generateRecommendations (findings : List Finding) : List String :=
  (((sortByConfDesc findings).take 5).map fun f =>
      match f.mitigation with
      | some m => if m = "" then f.title else m
      | none => f.title).filter (· ≠ "")

/-- Aggregation step `max` over `severityOrder.indexOf`, the reducer body of
the overall-severity computation. -/
def sevStep (max cat : Severity) : Severity :=
  if cat.rank > max.rank then cat else max

/-- Function `analyzeProtocol` of `dist/index.js`: run the six analyzers,
blend the scores with the fixed weights in `Object.entries` order, escalate
severity by maximum rank, extract the game-theory insight lists, and build
the report.  `Date.now()` is the explicit `nowMs` parameter. -/
def analyzeProtocol (nowMs : ℚ) (data : ProtocolData) : ProtocolRiskReport :=
  let economic := EconomicAnalyzer.analyze nowMs data
  let governance := GovernanceAnalyzer.analyze data
  let mev := MEVAnalyzer.analyze data
  let liquidity := LiquidityAnalyzer.analyze data
  let gameTheory := GameTheoryAnalyzer.analyze data
  let composability := ComposabilityAnalyzer.analyze data
  let categories : Categories :=
    { economic := economic, governance := governance, liquidity := liquidity,
      composability := composability, mev := mev, gameTheory := gameTheory }
  let weighted : List (ℚ × ℚ) :=
    [(economic.score, 0.20), (governance.score, 0.15), (liquidity.score, 0.20),
     (composability.score, 0.10), (mev.score, 0.10), (gameTheory.score, 0.25)]
  let overallScore := weighted.foldl (fun sum e => sum + e.1 * e.2) (0 : ℚ)
  let maxSeverity :=
    [economic.severity, governance.severity, liquidity.severity,
     composability.severity, mev.severity, gameTheory.severity].foldl sevStep .low
  let allFindings :=
    [economic, governance, liquidity, composability, mev, gameTheory].flatMap (·.findings)
  let criticalFindings := allFindings.filter fun f => decide (f.confidence > 0.7)
  let nashEquilibria :=
    ((gameTheory.findings.map fun f => f.gameTheory.bind (·.equilibria)).filterMap id).flatten
  let dominantStrategies := gameTheory.findings.filterMap fun f =>
    match f.gameTheory with
    | some g =>
        match g.strategy, g.dominance with
        | some s, some d => if s ≠ "" ∧ d ≠ "" then some (s ++ " (" ++ d ++ ")") else none
        | _, _ => none
    | none => none
  { protocol := data.name,
    address := data.address,
    timestamp := nowMs,
    overallScore := (jsRound (overallScore * 10) : ℚ) / 10,
    overallSeverity := maxSeverity,
    categories := categories,
    summary := generateSummary data.name allFindings criticalFindings gameTheory,
    recommendations := generateRecommendations criticalFindings,
    nashEquilibria := if nashEquilibria.length > 0 then some nashEquilibria else none,
    dominantStrategies := if dominantStrategies.length > 0 then some dominantStrategies else none }

/-- Raw request body as received by the `/api/analyze` handlers, before the
required-field check: `address` and `name` may be missing. -/
structure RawRequest where
  address : Option String := none
  name : Option String := none
  tvl : Option ℚ := none
  tokenomics : Option TokenomicsData := none
  governance : Option GovernanceData := none
  pools : Option (List PoolData) := none
deriving DecidableEq

/-- Error taxonomy of the engine boundary: the only failure the handlers
signal (HTTP 400, `Missing required fields: address, name`). -/
inductive EngineError where
  | MissingRequiredField
deriving DecidableEq

/-- JavaScript truthiness of an optional string: false for a missing field
and for the empty string. -/
def jsTruthyStr : Option String → Bool
  | none => false
  | some s => !(s == "")

/-- The single logical operation the core exposes, the body of the
`/api/analyze` handlers: `if (!data.address || !data.name)` refuse with the
missing-required-field error, otherwise run `analyzeProtocol` on the record
unchanged. -/
def scoreProtocol (nowMs : ℚ) (data : RawRequest) : Except EngineError ProtocolRiskReport :=
  if jsTruthyStr data.address && jsTruthyStr data.name then
    .ok (analyzeProtocol nowMs
      { address := data.address.getD "", name := data.name.getD "",
        tvl := data.tvl, tokenomics := data.tokenomics,
        governance := data.governance, pools := data.pools })
  else .error .MissingRequiredField

/-- A report with its timestamp field cleared, for comparing two runs of the
engine up to the clock reading. -/
def scrubTimestamp (r : ProtocolRiskReport) : ProtocolRiskReport :=
  { r with timestamp := 0 }

namespace GovernanceAnalyzer

theorem quorumCheck_fst_nonneg (gov : GovernanceData) : 0 ≤ (quorumCheck gov).1 := by
  unfold quorumCheck
  repeat' split
  all_goals norm_num

theorem timelockCheck_fst_nonneg (gov : GovernanceData) : 0 ≤ (timelockCheck gov).1 := by
  unfold timelockCheck
  repeat' split
  all_goals norm_num

theorem votingPowerCheck_fst_nonneg (gov : GovernanceData) : 0 ≤ (votingPowerCheck gov).1 := by
  unfold votingPowerCheck
  repeat' split
  all_goals norm_num

theorem proposalThresholdCheck_fst_nonneg (gov : GovernanceData) :
    0 ≤ (proposalThresholdCheck gov).1 := by
  unfold proposalThresholdCheck
  repeat' split
  all_goals norm_num

end GovernanceAnalyzer

namespace MEVAnalyzer

theorem analyzePool_fst_nonneg (p : PoolData) : 0 ≤ (analyzePool p).1 := by
  unfold analyzePool
  dsimp only
  apply add_nonneg
  all_goals repeat' split
  all_goals norm_num

theorem analyzeOracleMEV_fst_nonneg (protocol : ProtocolData) :
    0 ≤ (analyzeOracleMEV protocol).1 := by
  norm_num [analyzeOracleMEV]

end MEVAnalyzer

/-- The invariant every category is claimed to satisfy: score within bounds
and severity the breakpoint function of the reported score. -/
def categoryInvariant (c : RiskCategory) : Prop :=
  0 ≤ c.score ∧ c.score ≤ 10 ∧ c.severity = scoreSeverity c.score

/-- Capping a score at 10 never changes its severity tier: above 10 both
sides are critical, otherwise the cap is the identity. -/
theorem scoreSeverity_min10 (s : ℚ) : scoreSeverity (min 10 s) = scoreSeverity s := by
  rcases le_total 10 s with h | h
  · rw [min_eq_left h]
    unfold scoreSeverity
    rw [if_pos (by norm_num), if_pos (by linarith)]
  · rw [min_eq_right h]

/-- Categories built the way the clamping analyzers build them (capped score,
severity from the uncapped average) satisfy the invariant whenever the
average is nonnegative. -/
theorem categoryInvariant_clamped (nm : String) (avg : ℚ) (fs : List Finding)
    (h : 0 ≤ avg) :
    categoryInvariant
      { name := nm, score := min 10 avg, severity := scoreSeverity avg, findings := fs } :=
  ⟨le_min (by norm_num) h, min_le_left _ _, (scoreSeverity_min10 avg).symm⟩

/-- The governance placeholder category satisfies the invariant. -/
theorem categoryInvariant_zero (nm : String) (fs : List Finding) :
    categoryInvariant { name := nm, score := 0, severity := .low, findings := fs } :=
  ⟨le_refl 0, by norm_num, by norm_num [scoreSeverity]⟩

/-- The pool-data placeholder categories (score 2) satisfy the invariant. -/
theorem categoryInvariant_two (nm : String) (fs : List Finding) :
    categoryInvariant { name := nm, score := 2, severity := .low, findings := fs } :=
  ⟨by norm_num, by norm_num, by norm_num [scoreSeverity]⟩

/-- Nonnegativity of a left fold accumulating one nonnegative summand per
element, the summation shape of the confidence-weighted analyzers. -/
theorem foldl_add_nonneg {α : Type} (g : α → ℚ) (l : List α) (init : ℚ)
    (h0 : 0 ≤ init) (h : ∀ a ∈ l, 0 ≤ g a) :
    0 ≤ l.foldl (fun s a => s + g a) init := by
  induction l generalizing init with
  | nil => simpa using h0
  | cons a t ih =>
      simp only [List.foldl_cons]
      exact ih _ (add_nonneg h0 (h a (List.mem_cons_self a t)))
        fun b hb => h b (List.mem_cons_of_mem _ hb)

/-- Membership in a conditional singleton-or-empty branch lands in the
nonempty branch. -/
theorem mem_of_mem_ite_nil {c : Prop} [Decidable c] {l : List Finding} {f : Finding}
    (hf : f ∈ if c then l else []) : f ∈ l := by
  split at hf
  · exact hf
  · exact absurd hf (List.not_mem_nil f)

namespace EconomicAnalyzer

theorem concentrationCheck_fst_nonneg (tk : TokenomicsData) :
    0 ≤ (concentrationCheck tk).1 := by
  unfold concentrationCheck
  repeat' split
  all_goals norm_num

theorem emissionCheck_fst_nonneg (tk : TokenomicsData) :
    0 ≤ (emissionCheck tk).1 := by
  unfold emissionCheck
  repeat' split
  all_goals try dsimp only
  all_goals repeat' split
  all_goals norm_num

theorem vestingCheck_fst_nonneg (nowMs : ℚ) (tk : TokenomicsData) :
    0 ≤ (vestingCheck nowMs tk).1 := by
  unfold vestingCheck
  repeat' split
  all_goals try dsimp only
  all_goals repeat' split
  all_goals norm_num

theorem analyzeTokenomics_fst_nonneg (nowMs : ℚ) (tk : TokenomicsData) :
    0 ≤ (analyzeTokenomics nowMs tk).1 := by
  unfold analyzeTokenomics
  dsimp only
  split
  · exact div_nonneg
      (add_nonneg (add_nonneg (concentrationCheck_fst_nonneg tk) (emissionCheck_fst_nonneg tk))
        (vestingCheck_fst_nonneg nowMs tk))
      (Nat.cast_nonneg _)
  · exact le_refl 0

theorem tokenomicsPart_fst_nonneg (nowMs : ℚ) (protocol : ProtocolData) :
    0 ≤ (tokenomicsPart nowMs protocol).1 := by
  unfold tokenomicsPart
  split
  · exact analyzeTokenomics_fst_nonneg nowMs _
  · exact le_refl 0

theorem analyzeFlashLoanRisk_fst_nonneg (protocol : ProtocolData) :
    0 ≤ (analyzeFlashLoanRisk protocol).1 := by
  unfold analyzeFlashLoanRisk
  repeat' split
  all_goals try dsimp only
  all_goals repeat' split
  all_goals norm_num

theorem analyzeOracleRisk_fst_nonneg (protocol : ProtocolData) :
    0 ≤ (analyzeOracleRisk protocol).1 := by
  norm_num [analyzeOracleRisk]

theorem analyzeIncentiveAlignment_fst_nonneg (protocol : ProtocolData) :
    0 ≤ (analyzeIncentiveAlignment protocol).1 := by
  unfold analyzeIncentiveAlignment
  repeat' split
  all_goals try dsimp only
  all_goals repeat' split
  all_goals norm_num

/-- The economic category always satisfies the score/severity invariant. -/
theorem economic_invariant (nowMs : ℚ) (protocol : ProtocolData) :
    categoryInvariant (analyze nowMs protocol) := by
  unfold analyze
  dsimp only
  apply categoryInvariant_clamped
  split
  · exact div_nonneg
      (add_nonneg
        (add_nonneg
          (add_nonneg (tokenomicsPart_fst_nonneg nowMs protocol)
            (analyzeFlashLoanRisk_fst_nonneg protocol))
          (analyzeOracleRisk_fst_nonneg protocol))
        (analyzeIncentiveAlignment_fst_nonneg protocol))
      (Nat.cast_nonneg _)
  · exact le_refl 0

end EconomicAnalyzer

/-- The governance category always satisfies the score/severity invariant. -/
theorem governance_invariant (protocol : ProtocolData) :
    categoryInvariant (GovernanceAnalyzer.analyze protocol) := by
  unfold GovernanceAnalyzer.analyze
  split
  · exact categoryInvariant_zero _ _
  · dsimp only
    apply categoryInvariant_clamped
    split
    · exact div_nonneg
        (add_nonneg
          (add_nonneg
            (add_nonneg (GovernanceAnalyzer.quorumCheck_fst_nonneg _)
              (GovernanceAnalyzer.timelockCheck_fst_nonneg _))
            (GovernanceAnalyzer.votingPowerCheck_fst_nonneg _))
          (GovernanceAnalyzer.proposalThresholdCheck_fst_nonneg _))
        (Nat.cast_nonneg _)
    · exact le_refl 0

/-- The MEV category always satisfies the score/severity invariant. -/
theorem mev_invariant (protocol : ProtocolData) :
    categoryInvariant (MEVAnalyzer.analyze protocol) := by
  unfold MEVAnalyzer.analyze
  split
  · exact categoryInvariant_two _ _
  · split
    · exact categoryInvariant_two _ _
    · dsimp only
      apply categoryInvariant_clamped
      split
      · apply div_nonneg _ (Nat.cast_nonneg _)
        apply add_nonneg _ (MEVAnalyzer.analyzeOracleMEV_fst_nonneg protocol)
        apply List.sum_nonneg
        intro x hx
        simp only [List.map_map, List.mem_map, Function.comp] at hx
        obtain ⟨p, _, rfl⟩ := hx
        exact MEVAnalyzer.analyzePool_fst_nonneg p
      · exact le_refl 0

/-- The liquidity category always satisfies the score/severity invariant. -/
theorem liquidity_invariant (protocol : ProtocolData) :
    categoryInvariant (LiquidityAnalyzer.analyze protocol) := by
  unfold LiquidityAnalyzer.analyze
  dsimp only
  split
  · exact categoryInvariant_two _ _
  · split
    · exact categoryInvariant_two _ _
    · apply categoryInvariant_clamped
      split
      · apply div_nonneg _ (Nat.cast_nonneg _)
        refine add_nonneg (add_nonneg (add_nonneg ?_ ?_) ?_) ?_
        · exact LiquidityAnalyzer.concentrationRuleCheck_fst_nonneg _
        · exact LiquidityAnalyzer.tvlMismatchCheck_fst_nonneg _ _
        · apply List.sum_nonneg
          intro x hx
          simp only [List.map_map, List.mem_map, Function.comp] at hx
          obtain ⟨p, _, rfl⟩ := hx
          exact LiquidityAnalyzer.analyzePoolLiquidity_fst_nonneg p
        · exact LiquidityAnalyzer.analyzeImpermanentLoss_fst_nonneg _
      · exact le_refl 0

namespace GameTheoryAnalyzer

theorem severityWeight_nonneg (s : Severity) : 0 ≤ severityWeight s := by
  cases s <;> norm_num [severityWeight]

theorem gtContribution_nonneg (f : Finding) (h : 0 ≤ f.confidence) :
    0 ≤ gtContribution f := by
  unfold gtContribution
  dsimp only
  apply mul_nonneg (severityWeight_nonneg _)
  split
  · norm_num
  · exact h

theorem bankRunCheck_conf (p : ProtocolData) : ∀ f ∈ bankRunCheck p, 0 ≤ f.confidence := by
  intro f hf
  unfold bankRunCheck at hf
  repeat' split at hf
  all_goals try dsimp only at hf
  all_goals repeat' split at hf
  all_goals simp_all
  all_goals norm_num

theorem deadlockCheck_conf (p : ProtocolData) : ∀ f ∈ deadlockCheck p, 0 ≤ f.confidence := by
  intro f hf
  unfold deadlockCheck at hf
  repeat' split at hf
  all_goals simp_all
  all_goals norm_num

theorem farmAndDumpCheck_conf (p : ProtocolData) :
    ∀ f ∈ farmAndDumpCheck p, 0 ≤ f.confidence := by
  intro f hf
  unfold farmAndDumpCheck at hf
  repeat' split at hf
  all_goals try dsimp only at hf
  all_goals repeat' split at hf
  all_goals simp_all
  all_goals norm_num

theorem mevExtractionCheck_conf (p : ProtocolData) :
    ∀ f ∈ mevExtractionCheck p, 0 ≤ f.confidence := by
  intro f hf
  unfold mevExtractionCheck at hf
  repeat' split at hf
  all_goals try dsimp only at hf
  all_goals repeat' split at hf
  all_goals simp_all
  all_goals norm_num

theorem schellingCheck_conf (p : ProtocolData) : ∀ f ∈ schellingCheck p, 0 ≤ f.confidence := by
  intro f hf
  unfold schellingCheck at hf
  repeat' split at hf
  all_goals simp_all
  all_goals norm_num

theorem crossVenueCheck_conf (p : ProtocolData) :
    ∀ f ∈ crossVenueCheck p, 0 ≤ f.confidence := by
  intro f hf
  unfold crossVenueCheck at hf
  repeat' split at hf
  all_goals try dsimp only at hf
  all_goals repeat' split at hf
  all_goals simp_all
  all_goals norm_num

theorem incentiveCompatibilityCheck_conf (p : ProtocolData) :
    ∀ f ∈ incentiveCompatibilityCheck p, 0 ≤ f.confidence := by
  intro f hf
  unfold incentiveCompatibilityCheck at hf
  repeat' split at hf
  all_goals simp_all
  all_goals norm_num

theorem valueLeakageCheck_conf (p : ProtocolData) :
    ∀ f ∈ valueLeakageCheck p, 0 ≤ f.confidence := by
  intro f hf
  unfold valueLeakageCheck at hf
  repeat' split at hf
  all_goals try dsimp only at hf
  all_goals repeat' split at hf
  all_goals simp_all
  all_goals norm_num

theorem cascadeCheck_conf (p : ProtocolData) : ∀ f ∈ cascadeCheck p, 0 ≤ f.confidence := by
  intro f hf
  unfold cascadeCheck at hf
  repeat' split at hf
  all_goals try dsimp only at hf
  all_goals repeat' split at hf
  all_goals simp_all
  all_goals norm_num

theorem armsRaceCheck_conf (p : ProtocolData) : ∀ f ∈ armsRaceCheck p, 0 ≤ f.confidence := by
  intro f hf
  unfold armsRaceCheck at hf
  repeat' split at hf
  all_goals simp_all
  all_goals norm_num

theorem asymmetryCheck_conf (p : ProtocolData) : ∀ f ∈ asymmetryCheck p, 0 ≤ f.confidence := by
  intro f hf
  unfold asymmetryCheck at hf
  repeat' split at hf
  all_goals simp_all
  all_goals norm_num

theorem collectFindings_conf (p : ProtocolData) :
    ∀ f ∈ collectFindings p, 0 ≤ f.confidence := by
  unfold collectFindings analyzeNashEquilibria analyzeDominantStrategies
    analyzeCoordinationGames analyzeMechanismDesign analyzeMultiAgentDynamics
  exact List.forall_mem_append.mpr
    ⟨List.forall_mem_append.mpr
      ⟨List.forall_mem_append.mpr
        ⟨List.forall_mem_append.mpr
          ⟨List.forall_mem_append.mpr ⟨bankRunCheck_conf p, deadlockCheck_conf p⟩,
            List.forall_mem_append.mpr ⟨farmAndDumpCheck_conf p, mevExtractionCheck_conf p⟩⟩,
          List.forall_mem_append.mpr ⟨schellingCheck_conf p, crossVenueCheck_conf p⟩⟩,
        List.forall_mem_append.mpr
          ⟨incentiveCompatibilityCheck_conf p, valueLeakageCheck_conf p⟩⟩,
      List.forall_mem_append.mpr
        ⟨List.forall_mem_append.mpr ⟨cascadeCheck_conf p, armsRaceCheck_conf p⟩,
          asymmetryCheck_conf p⟩⟩

end GameTheoryAnalyzer

/-- The game-theory category always satisfies the score/severity invariant. -/
theorem gameTheory_invariant (protocol : ProtocolData) :
    categoryInvariant (GameTheoryAnalyzer.analyze protocol) := by
  unfold GameTheoryAnalyzer.analyze
  dsimp only
  have htot : 0 ≤ (GameTheoryAnalyzer.collectFindings protocol).foldl
      (fun s f => s + GameTheoryAnalyzer.gtContribution f) 0 :=
    foldl_add_nonneg _ _ _ (le_refl 0) fun f hf =>
      GameTheoryAnalyzer.gtContribution_nonneg f
        (GameTheoryAnalyzer.collectFindings_conf protocol f hf)
  refine ⟨?_, ?_, rfl⟩
  · split
    · exact le_min (by norm_num) (div_nonneg htot (Nat.cast_nonneg _))
    · exact le_refl 0
  · split
    · exact min_le_left _ _
    · norm_num

namespace ComposabilityAnalyzer

theorem analyzeDependencyDepth_conf (p : ProtocolData) :
    ∀ f ∈ analyzeDependencyDepth p, 0 ≤ f.confidence := by
  intro f hf
  unfold analyzeDependencyDepth at hf
  simp only [List.mem_append] at hf
  rcases hf with (hf | hf) | hf
  all_goals obtain rfl := List.mem_singleton.mp (mem_of_mem_ite_nil hf)
  all_goals norm_num

theorem analyzeOracleConcentration_conf (p : ProtocolData) :
    ∀ f ∈ analyzeOracleConcentration p, 0 ≤ f.confidence := by
  intro f hf
  unfold analyzeOracleConcentration at hf
  repeat' split at hf
  all_goals simp_all
  all_goals norm_num

theorem analyzeLiquidityFragmentation_conf (p : ProtocolData) :
    ∀ f ∈ analyzeLiquidityFragmentation p, 0 ≤ f.confidence := by
  intro f hf
  unfold analyzeLiquidityFragmentation at hf
  repeat' split at hf
  all_goals try dsimp only at hf
  all_goals repeat' split at hf
  all_goals simp_all
  all_goals norm_num

theorem analyzeCollateralChain_conf (p : ProtocolData) :
    ∀ f ∈ analyzeCollateralChain p, 0 ≤ f.confidence := by
  intro f hf
  unfold analyzeCollateralChain at hf
  repeat' split at hf
  all_goals try dsimp only at hf
  all_goals repeat' split at hf
  all_goals simp_all
  all_goals norm_num

theorem analyzeReentrancyEconomics_conf (p : ProtocolData) :
    ∀ f ∈ analyzeReentrancyEconomics p, 0 ≤ f.confidence := by
  intro f hf
  unfold analyzeReentrancyEconomics at hf
  repeat' split at hf
  all_goals simp_all
  all_goals norm_num

theorem analyzeBridgeRisk_conf (p : ProtocolData) :
    ∀ f ∈ analyzeBridgeRisk p, 0 ≤ f.confidence := by
  intro f hf
  unfold analyzeBridgeRisk at hf
  simp only [List.mem_append] at hf
  rcases hf with hf | hf
  all_goals obtain rfl := List.mem_singleton.mp (mem_of_mem_ite_nil hf)
  all_goals norm_num

theorem composabilityFindings_conf (p : ProtocolData) :
    ∀ f ∈ composabilityFindings p, 0 ≤ f.confidence := by
  unfold composabilityFindings
  exact List.forall_mem_append.mpr
    ⟨List.forall_mem_append.mpr
      ⟨List.forall_mem_append.mpr
        ⟨List.forall_mem_append.mpr
          ⟨List.forall_mem_append.mpr
            ⟨analyzeDependencyDepth_conf p, analyzeOracleConcentration_conf p⟩,
            analyzeLiquidityFragmentation_conf p⟩,
          analyzeCollateralChain_conf p⟩,
        analyzeReentrancyEconomics_conf p⟩,
      analyzeBridgeRisk_conf p⟩

end ComposabilityAnalyzer

/-- Nonnegativity of the composability score accumulation. -/
theorem foldl_conf10_nonneg (l : List Finding) (init : ℚ) (h0 : 0 ≤ init)
    (h : ∀ f ∈ l, 0 ≤ f.confidence) :
    0 ≤ l.foldl (fun sum f => sum + f.confidence * 10) init := by
  induction l generalizing init with
  | nil => simpa using h0
  | cons a t ih =>
      simp only [List.foldl_cons]
      exact ih _
        (add_nonneg h0 (mul_nonneg (h a (List.mem_cons_self a t)) (by norm_num)))
        fun b hb => h b (List.mem_cons_of_mem _ hb)

/-- The composability category always satisfies the score/severity
invariant. -/
theorem composability_invariant (protocol : ProtocolData) :
    categoryInvariant (ComposabilityAnalyzer.analyze protocol) := by
  unfold ComposabilityAnalyzer.analyze
  dsimp only
  have htot : 0 ≤ (ComposabilityAnalyzer.composabilityFindings protocol).foldl
      (fun sum f => sum + f.confidence * 10) (0 : ℚ) :=
    foldl_conf10_nonneg _ _ (le_refl 0)
      (ComposabilityAnalyzer.composabilityFindings_conf protocol)
  refine ⟨?_, ?_, rfl⟩
  · split
    · exact le_min (by norm_num) (div_nonneg htot (Nat.cast_nonneg _))
    · exact le_refl 0
  · split
    · exact min_le_left _ _
    · norm_num

/-- C3: For every valid input, every one of the six category analyzers
returns a score in [0,10] and a severity equal to the fixed breakpoint
function of that score (score below 3 low, below 6 medium, below 8 high,
else critical), including where the reported score is capped at 10 while
severity is derived from the uncapped running average. -/
theorem analyzers_satisfy_category_invariant (nowMs : ℚ) (data : ProtocolData) :
    categoryInvariant (EconomicAnalyzer.analyze nowMs data)
    ∧ categoryInvariant (GovernanceAnalyzer.analyze data)
    ∧ categoryInvariant (LiquidityAnalyzer.analyze data)
    ∧ categoryInvariant (ComposabilityAnalyzer.analyze data)
    ∧ categoryInvariant (MEVAnalyzer.analyze data)
    ∧ categoryInvariant (GameTheoryAnalyzer.analyze data) :=
  ⟨EconomicAnalyzer.economic_invariant nowMs data, governance_invariant data,
    liquidity_invariant data, composability_invariant data, mev_invariant data,
    gameTheory_invariant data⟩

/-- C1: For every input record, the report's overallScore is the weighted sum
of the six category scores (economic 0.20, governance 0.15, liquidity 0.20,
composability 0.10, mev 0.10, gameTheory 0.25) rounded to one decimal place,
and the weights sum to 1. -/
theorem overallScore_is_weighted_sum (nowMs : ℚ) (data : ProtocolData) :
    (analyzeProtocol nowMs data).overallScore =
      ((jsRound (((analyzeProtocol nowMs data).categories.economic.score * 0.20
        + (analyzeProtocol nowMs data).categories.governance.score * 0.15
        + (analyzeProtocol nowMs data).categories.liquidity.score * 0.20
        + (analyzeProtocol nowMs data).categories.composability.score * 0.10
        + (analyzeProtocol nowMs data).categories.mev.score * 0.10
        + (analyzeProtocol nowMs data).categories.gameTheory.score * 0.25) * 10) : ℚ)) / 10
    ∧ (0.20 + 0.15 + 0.20 + 0.10 + 0.10 + 0.25 : ℚ) = 1 := by
  constructor
  · simp only [analyzeProtocol, List.foldl, zero_add]
  · norm_num

/-- The six category severities of a report, in the `Object.values` order the
aggregator folds over. -/
def reportSeverities (r : ProtocolRiskReport) : List Severity :=
  [r.categories.economic.severity, r.categories.governance.severity,
   r.categories.liquidity.severity, r.categories.composability.severity,
   r.categories.mev.severity, r.categories.gameTheory.severity]

theorem sevStep_rank_left (m s : Severity) : m.rank ≤ (sevStep m s).rank := by
  unfold sevStep
  split
  · omega
  · exact le_refl _

theorem sevStep_rank_right (m s : Severity) : s.rank ≤ (sevStep m s).rank := by
  unfold sevStep
  split
  · exact le_refl _
  · omega

theorem sevStep_eq_or (m s : Severity) : sevStep m s = m ∨ sevStep m s = s := by
  unfold sevStep
  split
  · exact Or.inr rfl
  · exact Or.inl rfl

theorem foldl_sevStep_init_le (l : List Severity) (init : Severity) :
    init.rank ≤ (l.foldl sevStep init).rank := by
  induction l generalizing init with
  | nil => exact le_refl _
  | cons a t ih =>
      simp only [List.foldl_cons]
      exact le_trans (sevStep_rank_left init a) (ih (sevStep init a))

theorem foldl_sevStep_ge (l : List Severity) (init : Severity) :
    ∀ s ∈ l, s.rank ≤ (l.foldl sevStep init).rank := by
  induction l generalizing init with
  | nil => intro s hs; exact absurd hs (List.not_mem_nil s)
  | cons a t ih =>
      intro s hs
      simp only [List.foldl_cons]
      rcases List.mem_cons.mp hs with rfl | hs
      · exact le_trans (sevStep_rank_right init s) (foldl_sevStep_init_le t _)
      · exact ih (sevStep init a) s hs

theorem foldl_sevStep_mem (l : List Severity) (init : Severity) :
    l.foldl sevStep init = init ∨ l.foldl sevStep init ∈ l := by
  induction l generalizing init with
  | nil => exact Or.inl rfl
  | cons a t ih =>
      simp only [List.foldl_cons]
      rcases ih (sevStep init a) with h | h
      · rcases sevStep_eq_or init a with h2 | h2
        · exact Or.inl (h.trans h2)
        · exact Or.inr (by rw [h, h2]; exact List.mem_cons_self a t)
      · exact Or.inr (List.mem_cons_of_mem a h)

theorem severity_rank_le_zero (s : Severity) (h : s.rank ≤ 0) : s = .low := by
  cases s <;> simp [Severity.rank] at h ⊢

theorem severity_rank_ge_three (s : Severity) (h : 3 ≤ s.rank) : s = .critical := by
  cases s <;> simp [Severity.rank] at h ⊢

/-- C2: For every input record, the report's overallSeverity is the
maximum-ranked severity among the six category severities (an upper bound of
all six, and itself one of the six); in particular a critical category forces
a critical overall severity. -/
theorem overallSeverity_is_max (nowMs : ℚ) (data : ProtocolData) :
    (∀ s ∈ reportSeverities (analyzeProtocol nowMs data),
      s.rank ≤ (analyzeProtocol nowMs data).overallSeverity.rank)
    ∧ (analyzeProtocol nowMs data).overallSeverity
        ∈ reportSeverities (analyzeProtocol nowMs data)
    ∧ (Severity.critical ∈ reportSeverities (analyzeProtocol nowMs data) →
        (analyzeProtocol nowMs data).overallSeverity = .critical) := by
  have hmax : (analyzeProtocol nowMs data).overallSeverity
      = (reportSeverities (analyzeProtocol nowMs data)).foldl sevStep .low := rfl
  have hub : ∀ s ∈ reportSeverities (analyzeProtocol nowMs data),
      s.rank ≤ (analyzeProtocol nowMs data).overallSeverity.rank := by
    intro s hs
    rw [hmax]
    exact foldl_sevStep_ge _ _ s hs
  refine ⟨hub, ?_, ?_⟩
  · rcases foldl_sevStep_mem (reportSeverities (analyzeProtocol nowMs data)) .low with h | h
    · have he : (analyzeProtocol nowMs data).categories.economic.severity = .low := by
        apply severity_rank_le_zero
        have := hub (analyzeProtocol nowMs data).categories.economic.severity
          (List.mem_cons_self _ _)
        rw [hmax, h] at this
        simpa [Severity.rank] using this
      rw [hmax, h, ← he]
      exact List.mem_cons_self _ _
    · rw [hmax]
      exact h
  · intro hc
    exact severity_rank_ge_three _ (le_trans (by norm_num [Severity.rank]) (hub .critical hc))

/-- Example governance parameters that trigger only the critically-low-quorum
rule (quorum 0.03; every other governance rule threshold is respected). -/
def govOnlyGov : GovernanceData :=
  { quorum := 0.03, votingPeriod := 432000, timelockDelay := 172800,
    proposalThreshold := 0.01, topHolderVotingPower := 0.2 }

/-- Example input carrying only the governance section: the governance
category comes out critical (score 8) while every other category stays low. -/
def govOnlyData : ProtocolData :=
  { address := "a", name := "x", governance := some govOnlyGov }

/-- Evaluation of the engine on the governance-only input: the weighted
overall score is 2.6 while the escalated overall severity is critical. -/
theorem govOnly_report_eval :
    (analyzeProtocol 0 govOnlyData).overallScore = 2.6
    ∧ (analyzeProtocol 0 govOnlyData).overallSeverity = .critical
    ∧ (GovernanceAnalyzer.analyze govOnlyData).severity = .critical := by
  norm_num [analyzeProtocol, jsRound, sevStep, Severity.rank,
    EconomicAnalyzer.analyze, EconomicAnalyzer.tokenomicsPart,
    EconomicAnalyzer.tokenomicsCount, EconomicAnalyzer.analyzeFlashLoanRisk,
    EconomicAnalyzer.analyzeOracleRisk, EconomicAnalyzer.analyzeIncentiveAlignment,
    GovernanceAnalyzer.analyze, GovernanceAnalyzer.quorumCheck,
    GovernanceAnalyzer.timelockCheck, GovernanceAnalyzer.votingPowerCheck,
    GovernanceAnalyzer.proposalThresholdCheck,
    MEVAnalyzer.analyze, LiquidityAnalyzer.analyze,
    GameTheoryAnalyzer.analyze, GameTheoryAnalyzer.collectFindings,
    GameTheoryAnalyzer.analyzeNashEquilibria, GameTheoryAnalyzer.bankRunCheck,
    GameTheoryAnalyzer.deadlockCheck, GameTheoryAnalyzer.analyzeDominantStrategies,
    GameTheoryAnalyzer.farmAndDumpCheck, GameTheoryAnalyzer.mevExtractionCheck,
    GameTheoryAnalyzer.analyzeCoordinationGames, GameTheoryAnalyzer.schellingCheck,
    GameTheoryAnalyzer.crossVenueCheck, GameTheoryAnalyzer.analyzeMechanismDesign,
    GameTheoryAnalyzer.incentiveCompatibilityCheck, GameTheoryAnalyzer.valueLeakageCheck,
    GameTheoryAnalyzer.analyzeMultiAgentDynamics, GameTheoryAnalyzer.cascadeCheck,
    GameTheoryAnalyzer.armsRaceCheck, GameTheoryAnalyzer.asymmetryCheck,
    GameTheoryAnalyzer.gtContribution, GameTheoryAnalyzer.findingSeverity,
    GameTheoryAnalyzer.severityWeight,
    ComposabilityAnalyzer.analyze, ComposabilityAnalyzer.composabilityFindings,
    ComposabilityAnalyzer.analyzeDependencyDepth, ComposabilityAnalyzer.analyzeOracleConcentration,
    ComposabilityAnalyzer.analyzeLiquidityFragmentation, ComposabilityAnalyzer.analyzeCollateralChain,
    ComposabilityAnalyzer.analyzeReentrancyEconomics, ComposabilityAnalyzer.analyzeBridgeRisk,
    jsToLower, strIncludes, charListIncludes, charListHasPrefix,
    govOnlyData, govOnlyGov, scoreSeverity]

/-- Witness for the severity-escalation theorem: on the governance-only input
one category is critical and the overall severity is critical. -/
theorem overallSeverity_is_max_witness :
    Severity.critical ∈ reportSeverities (analyzeProtocol 0 govOnlyData)
    ∧ (analyzeProtocol 0 govOnlyData).overallSeverity = .critical := by
  have hmem : Severity.critical ∈ reportSeverities (analyzeProtocol 0 govOnlyData) := by
    have hg := govOnly_report_eval.2.2
    simp only [reportSeverities, analyzeProtocol]
    rw [← hg]
    exact List.mem_cons_of_mem _ (List.mem_cons_self _ _)
  exact ⟨hmem, (overallSeverity_is_max 0 govOnlyData).2.2 hmem⟩

/-- C4 counterexample: on the governance-only input the report's overall
severity (critical, escalated from the governance category) differs from the
breakpoint function of its overall score (2.6, which maps to low). -/
theorem overallSeverity_breakpoint_counterexample :
    (analyzeProtocol 0 govOnlyData).overallSeverity ≠
      scoreSeverity (analyzeProtocol 0 govOnlyData).overallScore := by
  rw [govOnly_report_eval.1, govOnly_report_eval.2.1]
  norm_num [scoreSeverity]
  intro h
  cases h

/-- C4 (amended): the severity-breakpoint invariant holds for each of the six
categories of every report; the report's overallSeverity is instead the
maximum-ranked category severity and need not equal the breakpoint function
of overallScore. -/
theorem report_categories_severity_breakpoint (nowMs : ℚ) (data : ProtocolData) :
    ∀ c ∈ [(analyzeProtocol nowMs data).categories.economic,
           (analyzeProtocol nowMs data).categories.governance,
           (analyzeProtocol nowMs data).categories.liquidity,
           (analyzeProtocol nowMs data).categories.composability,
           (analyzeProtocol nowMs data).categories.mev,
           (analyzeProtocol nowMs data).categories.gameTheory],
      c.severity = scoreSeverity c.score := by
  intro c hc
  simp only [List.mem_cons, List.not_mem_nil, or_false] at hc
  rcases hc with rfl | rfl | rfl | rfl | rfl | rfl
  · exact (EconomicAnalyzer.economic_invariant nowMs data).2.2
  · exact (governance_invariant data).2.2
  · exact (liquidity_invariant data).2.2
  · exact (composability_invariant data).2.2
  · exact (mev_invariant data).2.2
  · exact (gameTheory_invariant data).2.2

/-- Witness for the amended C4 theorem at the governance-only input and its
economic category. -/
theorem report_categories_severity_breakpoint_witness :
    (analyzeProtocol 0 govOnlyData).categories.economic.severity =
      scoreSeverity (analyzeProtocol 0 govOnlyData).categories.economic.score :=
  report_categories_severity_breakpoint 0 govOnlyData _ (List.mem_cons_self _ _)

/-- Example input carrying only the required identifiers: every optional
section is absent. -/
def emptyData : ProtocolData := { address := "addr", name := "n" }

/-- C5 counterexample: with every optional input section absent, the
game-theory analyzer returns a category with NO findings (and score 0),
not a single-finding placeholder. -/
theorem gameTheory_no_placeholder_counterexample :
    (GameTheoryAnalyzer.analyze emptyData).findings = []
    ∧ (GameTheoryAnalyzer.analyze emptyData).score = 0 := by
  norm_num [GameTheoryAnalyzer.analyze, GameTheoryAnalyzer.collectFindings,
    GameTheoryAnalyzer.analyzeNashEquilibria, GameTheoryAnalyzer.bankRunCheck,
    GameTheoryAnalyzer.deadlockCheck, GameTheoryAnalyzer.analyzeDominantStrategies,
    GameTheoryAnalyzer.farmAndDumpCheck, GameTheoryAnalyzer.mevExtractionCheck,
    GameTheoryAnalyzer.analyzeCoordinationGames, GameTheoryAnalyzer.schellingCheck,
    GameTheoryAnalyzer.crossVenueCheck, GameTheoryAnalyzer.analyzeMechanismDesign,
    GameTheoryAnalyzer.incentiveCompatibilityCheck, GameTheoryAnalyzer.valueLeakageCheck,
    GameTheoryAnalyzer.analyzeMultiAgentDynamics, GameTheoryAnalyzer.cascadeCheck,
    GameTheoryAnalyzer.armsRaceCheck, GameTheoryAnalyzer.asymmetryCheck, emptyData]

/-- C5 (amended): when its input section is entirely absent, each of the
governance (no governance object), MEV and liquidity (no pools) analyzers
returns a category with exactly one low-confidence (0.3) informational
finding and score at most 2 rather than a category with no findings; the
game-theory analyzer, by contrast, returns a category with no findings at
all when every optional section is absent. -/
theorem missing_sections_behavior (data : ProtocolData)
    (hg : data.governance = none) (hp : data.pools = none)
    (ht : data.tvl = none) (htk : data.tokenomics = none) :
    ((GovernanceAnalyzer.analyze data).findings.length = 1
      ∧ (∀ f ∈ (GovernanceAnalyzer.analyze data).findings, f.confidence = 0.3)
      ∧ (GovernanceAnalyzer.analyze data).score ≤ 2)
    ∧ ((MEVAnalyzer.analyze data).findings.length = 1
      ∧ (∀ f ∈ (MEVAnalyzer.analyze data).findings, f.confidence = 0.3)
      ∧ (MEVAnalyzer.analyze data).score ≤ 2)
    ∧ ((LiquidityAnalyzer.analyze data).findings.length = 1
      ∧ (∀ f ∈ (LiquidityAnalyzer.analyze data).findings, f.confidence = 0.3)
      ∧ (LiquidityAnalyzer.analyze data).score ≤ 2)
    ∧ (GameTheoryAnalyzer.analyze data).findings = [] := by
  refine ⟨?_, ?_, ?_, ?_⟩
  · simp [GovernanceAnalyzer.analyze, hg]
  · simp [MEVAnalyzer.analyze, hp]
  · simp [LiquidityAnalyzer.analyze, hp]
  · simp [GameTheoryAnalyzer.analyze, GameTheoryAnalyzer.collectFindings,
      GameTheoryAnalyzer.analyzeNashEquilibria, GameTheoryAnalyzer.bankRunCheck,
      GameTheoryAnalyzer.deadlockCheck, GameTheoryAnalyzer.analyzeDominantStrategies,
      GameTheoryAnalyzer.farmAndDumpCheck, GameTheoryAnalyzer.mevExtractionCheck,
      GameTheoryAnalyzer.analyzeCoordinationGames, GameTheoryAnalyzer.schellingCheck,
      GameTheoryAnalyzer.crossVenueCheck, GameTheoryAnalyzer.analyzeMechanismDesign,
      GameTheoryAnalyzer.incentiveCompatibilityCheck, GameTheoryAnalyzer.valueLeakageCheck,
      GameTheoryAnalyzer.analyzeMultiAgentDynamics, GameTheoryAnalyzer.cascadeCheck,
      GameTheoryAnalyzer.armsRaceCheck, GameTheoryAnalyzer.asymmetryCheck,
      hg, hp, ht, htk]

/-- Witness for the amended C5 theorem at the all-absent input. -/
theorem missing_sections_behavior_witness :
    ((GovernanceAnalyzer.analyze emptyData).findings.length = 1
      ∧ (∀ f ∈ (GovernanceAnalyzer.analyze emptyData).findings, f.confidence = 0.3)
      ∧ (GovernanceAnalyzer.analyze emptyData).score ≤ 2)
    ∧ ((MEVAnalyzer.analyze emptyData).findings.length = 1
      ∧ (∀ f ∈ (MEVAnalyzer.analyze emptyData).findings, f.confidence = 0.3)
      ∧ (MEVAnalyzer.analyze emptyData).score ≤ 2)
    ∧ ((LiquidityAnalyzer.analyze emptyData).findings.length = 1
      ∧ (∀ f ∈ (LiquidityAnalyzer.analyze emptyData).findings, f.confidence = 0.3)
      ∧ (LiquidityAnalyzer.analyze emptyData).score ≤ 2)
    ∧ (GameTheoryAnalyzer.analyze emptyData).findings = [] :=
  missing_sections_behavior emptyData rfl rfl rfl rfl

/-- C6: a missing governance object gives the governance placeholder (score
0, severity low, one finding of confidence 0.3), and missing (or empty)
pools give the MEV and liquidity placeholders (score 2, severity low, one
finding of confidence 0.3). -/
theorem placeholder_category_values (data : ProtocolData) :
    (data.governance = none →
      (GovernanceAnalyzer.analyze data).score = 0
      ∧ (GovernanceAnalyzer.analyze data).severity = .low
      ∧ (GovernanceAnalyzer.analyze data).findings.map (·.confidence) = [0.3])
    ∧ (data.pools = none ∨ data.pools = some [] →
      (MEVAnalyzer.analyze data).score = 2
      ∧ (MEVAnalyzer.analyze data).severity = .low
      ∧ (MEVAnalyzer.analyze data).findings.map (·.confidence) = [0.3]
      ∧ (LiquidityAnalyzer.analyze data).score = 2
      ∧ (LiquidityAnalyzer.analyze data).severity = .low
      ∧ (LiquidityAnalyzer.analyze data).findings.map (·.confidence) = [0.3]) := by
  constructor
  · intro hg
    simp [GovernanceAnalyzer.analyze, hg]
  · intro hp
    rcases hp with hp | hp
    · simp [MEVAnalyzer.analyze, LiquidityAnalyzer.analyze, hp]
    · simp [MEVAnalyzer.analyze, LiquidityAnalyzer.analyze, hp]

/-- Witness for the C6 theorem at the all-absent input. -/
theorem placeholder_category_values_witness :
    ((GovernanceAnalyzer.analyze emptyData).score = 0
      ∧ (GovernanceAnalyzer.analyze emptyData).severity = .low
      ∧ (GovernanceAnalyzer.analyze emptyData).findings.map (·.confidence) = [0.3])
    ∧ ((MEVAnalyzer.analyze emptyData).score = 2
      ∧ (MEVAnalyzer.analyze emptyData).severity = .low
      ∧ (MEVAnalyzer.analyze emptyData).findings.map (·.confidence) = [0.3]
      ∧ (LiquidityAnalyzer.analyze emptyData).score = 2
      ∧ (LiquidityAnalyzer.analyze emptyData).severity = .low
      ∧ (LiquidityAnalyzer.analyze emptyData).findings.map (·.confidence) = [0.3]) :=
  ⟨(placeholder_category_values emptyData).1 rfl,
    (placeholder_category_values emptyData).2 (Or.inl rfl)⟩

/-- C7: with Gini concentration 0.9 and no other tokenomics rule firing
(no emission rate, no vesting schedule), the economic category includes the
"Extreme Token Concentration" finding with confidence 0.9, and the
tokenomics branch contributes exactly 8 points to the running score. -/
theorem extreme_concentration_rule (nowMs : ℚ) (data : ProtocolData) (tk : TokenomicsData)
    (h : data.tokenomics = some tk) (hc : tk.concentration = some 0.9)
    (he : tk.emissionRate = none) (hv : tk.vestingSchedule = none) :
    (∃ f ∈ (EconomicAnalyzer.analyze nowMs data).findings,
      f.title = "Extreme Token Concentration" ∧ f.confidence = 0.9)
    ∧ (EconomicAnalyzer.analyzeTokenomics nowMs tk).1 = 8 := by
  have hconc : (0.9 : ℚ) > 0.8 := by norm_num
  constructor
  · simp only [EconomicAnalyzer.analyze, EconomicAnalyzer.tokenomicsPart, h,
      EconomicAnalyzer.analyzeTokenomics, EconomicAnalyzer.concentrationCheck, hc,
      EconomicAnalyzer.emissionCheck, he, EconomicAnalyzer.vestingCheck, hv,
      if_pos hconc, List.nil_append, List.append_nil]
    refine ⟨_, List.mem_append_left _ (List.mem_append_left _
      (List.mem_append_left _ (List.mem_cons_self _ _))), rfl, rfl⟩
  · simp [EconomicAnalyzer.analyzeTokenomics, EconomicAnalyzer.concentrationCheck, hc,
      EconomicAnalyzer.emissionCheck, he, EconomicAnalyzer.vestingCheck, hv, if_pos hconc]

/-- Example tokenomics carrying only the concentration field, at 0.9. -/
def concOnlyTok : TokenomicsData :=
  { totalSupply := 1000, circulatingSupply := 500, concentration := some 0.9 }

/-- Example input whose tokenomics is `concOnlyTok`. -/
def concOnlyData : ProtocolData :=
  { address := "a", name := "x", tokenomics := some concOnlyTok }

/-- Witness for the C7 theorem at the concentration-only input. -/
theorem extreme_concentration_rule_witness :
    (∃ f ∈ (EconomicAnalyzer.analyze 0 concOnlyData).findings,
      f.title = "Extreme Token Concentration" ∧ f.confidence = 0.9)
    ∧ (EconomicAnalyzer.analyzeTokenomics 0 concOnlyTok).1 = 8 :=
  extreme_concentration_rule 0 concOnlyData concOnlyTok rfl rfl rfl rfl

namespace EconomicAnalyzer

/-- Without a vesting schedule the vesting check is inert, at any clock. -/
theorem vestingCheck_none (nowMs : ℚ) (tk : TokenomicsData)
    (h : tk.vestingSchedule = none) : vestingCheck nowMs tk = (0, []) := by
  unfold vestingCheck
  rw [h]

/-- Without a vesting schedule the tokenomics analysis does not depend on the
clock. -/
theorem analyzeTokenomics_time_independent (t1 t2 : ℚ) (tk : TokenomicsData)
    (h : tk.vestingSchedule = none) :
    analyzeTokenomics t1 tk = analyzeTokenomics t2 tk := by
  unfold analyzeTokenomics
  rw [vestingCheck_none t1 tk h, vestingCheck_none t2 tk h]

/-- Without a vesting schedule the whole economic analyzer does not depend on
the clock. -/
theorem economic_time_independent (t1 t2 : ℚ) (data : ProtocolData)
    (h : data.tokenomics = none
      ∨ ∃ tk, data.tokenomics = some tk ∧ tk.vestingSchedule = none) :
    analyze t1 data = analyze t2 data := by
  have hpart : tokenomicsPart t1 data = tokenomicsPart t2 data := by
    unfold tokenomicsPart
    rcases h with h | ⟨tk, h, hv⟩
    · rw [h]
    · rw [h]
      exact analyzeTokenomics_time_independent t1 t2 tk hv
  unfold analyze
  rw [hpart]

end EconomicAnalyzer

/-- C8 (amended): the engine is deterministic up to the timestamp whenever
the input carries no vesting schedule (the one clock-dependent rule): two
runs at any two clock readings agree on every report field except
`timestamp`. -/
theorem engine_deterministic_modulo_timestamp (t1 t2 : ℚ) (data : ProtocolData)
    (h : data.tokenomics = none
      ∨ ∃ tk, data.tokenomics = some tk ∧ tk.vestingSchedule = none) :
    scrubTimestamp (analyzeProtocol t1 data) = scrubTimestamp (analyzeProtocol t2 data) := by
  have he := EconomicAnalyzer.economic_time_independent t1 t2 data h
  unfold analyzeProtocol scrubTimestamp
  rw [he]

/-- Witness for the amended C8 theorem: two runs on the all-absent input,
one second apart, agree up to the timestamp. -/
theorem engine_deterministic_modulo_timestamp_witness :
    scrubTimestamp (analyzeProtocol 0 emptyData)
      = scrubTimestamp (analyzeProtocol 1000 emptyData) :=
  engine_deterministic_modulo_timestamp 0 1000 emptyData (Or.inl rfl)

/-- Example tokenomics whose only active rule is a vesting unlock of half the
circulating supply at the one-million-second mark. -/
def vestTok : TokenomicsData :=
  { totalSupply := 1000, circulatingSupply := 1000,
    vestingSchedule := some [{ timestamp := 1000000, amount := 500, recipient := "r" }] }

/-- Example input whose tokenomics is `vestTok`. -/
def vestData : ProtocolData := { address := "a", name := "x", tokenomics := some vestTok }

/-- C8 counterexample: the same input scored at two different clock readings
(shortly before the unlock window opens, and after it has passed) yields
reports whose economic findings differ, so the reports differ beyond the
timestamp field. -/
theorem engine_time_dependent_counterexample :
    scrubTimestamp (analyzeProtocol 999999000 vestData)
      ≠ scrubTimestamp (analyzeProtocol 2000000000 vestData) := by
  intro hEq
  have hlen := congrArg (fun r => r.categories.economic.findings.length) hEq
  norm_num [scrubTimestamp, analyzeProtocol, EconomicAnalyzer.analyze,
    EconomicAnalyzer.tokenomicsPart, EconomicAnalyzer.tokenomicsCount,
    EconomicAnalyzer.analyzeTokenomics, EconomicAnalyzer.concentrationCheck,
    EconomicAnalyzer.emissionCheck, EconomicAnalyzer.vestingCheck,
    EconomicAnalyzer.analyzeFlashLoanRisk, EconomicAnalyzer.analyzeOracleRisk,
    EconomicAnalyzer.analyzeIncentiveAlignment, List.filter,
    vestData, vestTok] at hlen

/-- A string-option is JS-falsy exactly when it is absent or empty. -/
theorem jsTruthyStr_eq_false_iff (o : Option String) :
    jsTruthyStr o = false ↔ o = none ∨ o = some "" := by
  cases o with
  | none => simp [jsTruthyStr]
  | some s => simp [jsTruthyStr]

/-- Example request whose address is present but empty. -/
def emptyAddressRequest : RawRequest := { address := some "", name := some "n" }

/-- C9 counterexample: a request whose address and name are both present (the
address being the empty string) is still refused with the
missing-required-field error, so the engine does not fail only when a field
is absent. -/
theorem missing_field_error_counterexample :
    scoreProtocol 0 emptyAddressRequest = .error .MissingRequiredField
    ∧ emptyAddressRequest.address ≠ none ∧ emptyAddressRequest.name ≠ none := by
  refine ⟨?_, by simp [emptyAddressRequest], by simp [emptyAddressRequest]⟩
  simp [scoreProtocol, jsTruthyStr, emptyAddressRequest]

/-- C9 (amended): the scoring operation fails with the missing-required-field
error exactly when address or name is absent or empty; no other error can
arise; and whenever both fields are present and nonempty it returns a full
report. -/
theorem required_field_check_iff (nowMs : ℚ) (raw : RawRequest) :
    (scoreProtocol nowMs raw = .error .MissingRequiredField ↔
      raw.address = none ∨ raw.address = some "" ∨ raw.name = none ∨ raw.name = some "")
    ∧ (∀ e, scoreProtocol nowMs raw = .error e → e = .MissingRequiredField)
    ∧ (¬(raw.address = none ∨ raw.address = some "" ∨ raw.name = none ∨ raw.name = some "") →
      ∃ report, scoreProtocol nowMs raw = .ok report) := by
  refine ⟨?_, fun e _ => by cases e; rfl, ?_⟩
  · unfold scoreProtocol
    rcases hand : jsTruthyStr raw.address && jsTruthyStr raw.name with _ | _
    · simp only [Bool.false_eq_true, if_false]
      rcases Bool.and_eq_false_iff.mp hand with hfa | hfn
      · simp only [jsTruthyStr_eq_false_iff] at hfa
        constructor
        · intro _
          tauto
        · intro _
          trivial
      · simp only [jsTruthyStr_eq_false_iff] at hfn
        constructor
        · intro _
          tauto
        · intro _
          trivial
    · simp only [if_true, if_pos]
      constructor
      · intro hcontra
        exact absurd hcontra (by simp)
      · intro hdisj
        obtain ⟨hta, htn⟩ := Bool.and_eq_true_iff.mp hand
        exfalso
        rcases hdisj with h | h | h | h
        · rw [h] at hta; simp [jsTruthyStr] at hta
        · rw [h] at hta; simp [jsTruthyStr] at hta
        · rw [h] at htn; simp [jsTruthyStr] at htn
        · rw [h] at htn; simp [jsTruthyStr] at htn
  · intro hok
    unfold scoreProtocol
    rcases hand : jsTruthyStr raw.address && jsTruthyStr raw.name with _ | _
    · exfalso
      rcases Bool.and_eq_false_iff.mp hand with hf | hf
        <;> rw [jsTruthyStr_eq_false_iff] at hf
        <;> tauto
    · exact ⟨_, rfl⟩

/-- Example request with both required fields present and nonempty. -/
def okRequest : RawRequest := { address := some "addr1", name := some "proto" }

/-- Witness for the amended C9 theorem: the well-formed request is scored. -/
theorem required_field_check_iff_witness :
    ∃ report, scoreProtocol 0 okRequest = .ok report :=
  (required_field_check_iff 0 okRequest).2.2 (by simp [okRequest])

/-- C10: a present-but-empty address or name is treated as absent by the
falsy required-field check, so the engine refuses to score. -/
theorem empty_string_treated_as_missing (nowMs : ℚ) (raw : RawRequest)
    (h : raw.address = some "" ∨ raw.name = some "") :
    scoreProtocol nowMs raw = .error .MissingRequiredField := by
  unfold scoreProtocol
  rcases h with h | h
  · simp [jsTruthyStr, h]
  · simp [jsTruthyStr, h]

/-- Example request whose name is present but empty. -/
def emptyNameRequest : RawRequest := { address := some "addr1", name := some "" }

/-- Witness for the C10 theorem at the empty-name request. -/
theorem empty_string_treated_as_missing_witness :
    scoreProtocol 0 emptyNameRequest = .error .MissingRequiredField :=
  empty_string_treated_as_missing 0 emptyNameRequest (Or.inr rfl)
